import Mathlib

/-!
# Firmware feature negotiation of the brcmfmac driver (`feature.c`)

A shallow embedding of `drivers/net/wireless/broadcom/brcm80211/brcmfmac/feature.c`.

* The byte arrays `feat_flags` and `feature_disable` are lists of natural numbers, one
  element per `u8`; every store into a `u8` is followed by an explicit `% 256`.
* The enumerators, chip identifiers and flag constants come from headers that are not part
  of the sources (`feature.h`, `brcm_hw_ids.h`, `fwil.h`, `fwil_types.h`, `twt.h`); they are
  the fields of `brcmf_consts`, and every result holds for each well-formed choice of them.
* The firmware command channel (`fwil.c`) is an oracle `brcmf_fil`: the answer to a request
  is a function of the interface's error mode `fwil_fwerr` at the time of the call and of
  the name of the request.
-/

namespace Brcmf

/-! ## Constants of the missing headers -/

/-- The constants that `feature.c` takes from headers outside the sources: the ordinals of
the `enum brcmf_feat_id` members it names, the size of the flag arrays, the quirk ordinals,
the chip identifiers, the firmware error sentinel, the `wowl_cap` flag bits and the TWT
sub-command. -/
structure brcmf_consts where
  BRCMF_FEAT_MBSS : Nat
  BRCMF_FEAT_MCHAN : Nat
  BRCMF_FEAT_P2P : Nat
  BRCMF_FEAT_MONITOR : Nat
  BRCMF_FEAT_MONITOR_FLAG : Nat
  BRCMF_FEAT_MONITOR_FMT_RADIOTAP : Nat
  BRCMF_FEAT_DOT11H : Nat
  BRCMF_FEAT_SAE : Nat
  BRCMF_FEAT_FWAUTH : Nat
  BRCMF_FEAT_SAE_EXT : Nat
  BRCMF_FEAT_FBT : Nat
  BRCMF_FEAT_OKC : Nat
  BRCMF_FEAT_GCMP : Nat
  BRCMF_FEAT_OFFLOADS : Nat
  BRCMF_FEAT_ULP : Nat
  BRCMF_FEAT_PROPTXSTATUS : Nat
  BRCMF_FEAT_OWE : Nat
  BRCMF_FEAT_GSCAN : Nat
  BRCMF_FEAT_PNO : Nat
  BRCMF_FEAT_WOWL : Nat
  BRCMF_FEAT_WOWL_ARP_ND : Nat
  BRCMF_FEAT_WOWL_ND : Nat
  BRCMF_FEAT_WOWL_GTK : Nat
  BRCMF_FEAT_RSDB : Nat
  BRCMF_FEAT_TDLS : Nat
  BRCMF_FEAT_MFP : Nat
  BRCMF_FEAT_DUMP_OBSS : Nat
  BRCMF_FEAT_SURVEY_DUMP : Nat
  BRCMF_FEAT_SCAN_RANDOM_MAC : Nat
  BRCMF_FEAT_FWSUP : Nat
  BRCMF_FEAT_TWT : Nat
  BRCMF_FEAT_LAST : Nat
  BRCMF_MAX_FEATURE_BYTES : Nat
  BRCMF_FEAT_QUIRK_AUTO_AUTH : Nat
  BRCMF_FEAT_QUIRK_NEED_MPC : Nat
  BRCM_CC_43430_CHIP_ID : Nat
  BRCM_CC_4345_CHIP_ID : Nat
  BRCM_CC_43454_CHIP_ID : Nat
  CY_CC_43439_CHIP_ID : Nat
  BRCM_CC_4330_CHIP_ID : Nat
  BRCM_CC_43362_CHIP_ID : Nat
  BRCM_CC_43236_CHIP_ID : Nat
  BRCM_CC_4329_CHIP_ID : Nat
  BRCMF_FW_UNSUPPORTED : Nat
  BRCMF_WOWL_PFN_FOUND : Nat
  BRCMF_WOWL_GTK_FAILURE : Nat
  BRCMF_TWT_CMD_ENAB : Nat

/-- The feature ordinals that `feature.c` names, in the order of the structure fields. -/
def brcmf_consts.feat_ids (K : brcmf_consts) : List Nat :=
  [K.BRCMF_FEAT_MBSS, K.BRCMF_FEAT_MCHAN, K.BRCMF_FEAT_P2P, K.BRCMF_FEAT_MONITOR,
   K.BRCMF_FEAT_MONITOR_FLAG, K.BRCMF_FEAT_MONITOR_FMT_RADIOTAP, K.BRCMF_FEAT_DOT11H,
   K.BRCMF_FEAT_SAE, K.BRCMF_FEAT_FWAUTH, K.BRCMF_FEAT_SAE_EXT, K.BRCMF_FEAT_FBT,
   K.BRCMF_FEAT_OKC, K.BRCMF_FEAT_GCMP, K.BRCMF_FEAT_OFFLOADS, K.BRCMF_FEAT_ULP,
   K.BRCMF_FEAT_PROPTXSTATUS, K.BRCMF_FEAT_OWE, K.BRCMF_FEAT_GSCAN, K.BRCMF_FEAT_PNO,
   K.BRCMF_FEAT_WOWL, K.BRCMF_FEAT_WOWL_ARP_ND, K.BRCMF_FEAT_WOWL_ND,
   K.BRCMF_FEAT_WOWL_GTK, K.BRCMF_FEAT_RSDB, K.BRCMF_FEAT_TDLS, K.BRCMF_FEAT_MFP,
   K.BRCMF_FEAT_DUMP_OBSS, K.BRCMF_FEAT_SURVEY_DUMP, K.BRCMF_FEAT_SCAN_RANDOM_MAC,
   K.BRCMF_FEAT_FWSUP, K.BRCMF_FEAT_TWT]

/-- What the C language and the array declarations guarantee about the constants: the
members of an `enum` have pairwise different ordinals, each below the closing member
`BRCMF_FEAT_LAST`, and the flag arrays of `BRCMF_MAX_FEATURE_BYTES` bytes have a bit for
every ordinal below `BRCMF_FEAT_LAST`. -/
def brcmf_consts.wf (K : brcmf_consts) : Prop :=
  K.feat_ids.Pairwise (fun a b => a ≠ b) ∧
  (∀ id ∈ K.feat_ids, id < K.BRCMF_FEAT_LAST) ∧
  K.BRCMF_FEAT_LAST ≤ 8 * K.BRCMF_MAX_FEATURE_BYTES

instance (K : brcmf_consts) : Decidable K.wf := by
  unfold brcmf_consts.wf; infer_instance

/-- A sample choice of the constants, used to evaluate the definitions on concrete inputs.
The feature list has 35 members (four of them are not named by `feature.c`), so the flag
arrays have five bytes. -/
def sampleConsts : brcmf_consts where
  BRCMF_FEAT_MBSS := 0
  BRCMF_FEAT_MCHAN := 1
  BRCMF_FEAT_PNO := 2
  BRCMF_FEAT_WOWL := 3
  BRCMF_FEAT_P2P := 4
  BRCMF_FEAT_RSDB := 5
  BRCMF_FEAT_TDLS := 6
  BRCMF_FEAT_SCAN_RANDOM_MAC := 7
  BRCMF_FEAT_WOWL_ND := 8
  BRCMF_FEAT_WOWL_GTK := 9
  BRCMF_FEAT_WOWL_ARP_ND := 10
  BRCMF_FEAT_MFP := 11
  BRCMF_FEAT_GSCAN := 12
  BRCMF_FEAT_FWSUP := 13
  BRCMF_FEAT_MONITOR := 14
  BRCMF_FEAT_MONITOR_FLAG := 15
  BRCMF_FEAT_MONITOR_FMT_RADIOTAP := 16
  BRCMF_FEAT_DOT11H := 18
  BRCMF_FEAT_SAE := 19
  BRCMF_FEAT_FWAUTH := 20
  BRCMF_FEAT_DUMP_OBSS := 21
  BRCMF_FEAT_SURVEY_DUMP := 25
  BRCMF_FEAT_SAE_EXT := 26
  BRCMF_FEAT_FBT := 27
  BRCMF_FEAT_OKC := 28
  BRCMF_FEAT_GCMP := 29
  BRCMF_FEAT_TWT := 30
  BRCMF_FEAT_OFFLOADS := 31
  BRCMF_FEAT_ULP := 32
  BRCMF_FEAT_PROPTXSTATUS := 33
  BRCMF_FEAT_OWE := 34
  BRCMF_FEAT_LAST := 35
  BRCMF_MAX_FEATURE_BYTES := 5
  BRCMF_FEAT_QUIRK_AUTO_AUTH := 0
  BRCMF_FEAT_QUIRK_NEED_MPC := 1
  BRCM_CC_43430_CHIP_ID := 43430
  BRCM_CC_4345_CHIP_ID := 0x4345
  BRCM_CC_43454_CHIP_ID := 43454
  CY_CC_43439_CHIP_ID := 43439
  BRCM_CC_4330_CHIP_ID := 0x4330
  BRCM_CC_43362_CHIP_ID := 43362
  BRCM_CC_43236_CHIP_ID := 43236
  BRCM_CC_4329_CHIP_ID := 0x4329
  BRCMF_FW_UNSUPPORTED := 23
  BRCMF_WOWL_PFN_FOUND := 2 ^ 13
  BRCMF_WOWL_GTK_FAILURE := 2 ^ 15
  BRCMF_TWT_CMD_ENAB := 0

/-! ## Driver state -/

/-- The fields of `struct brcmf_bus` that negotiation reads. -/
structure brcmf_bus where
  chip : Nat
  wowl_supported : Bool

/-- The field of `struct brcmf_mp_device` (the device settings) that negotiation reads. -/
structure brcmf_mp_device where
  feature_disable : List Nat

/-- The fields of `struct brcmf_pub` that negotiation reads and writes. -/
structure brcmf_pub where
  feat_flags : List Nat
  chip_quirks : Nat
  bus_if : brcmf_bus
  settings : brcmf_mp_device

/-- The fields of `struct brcmf_if`: the driver instance it points to and the
firmware-error mode of the command channel. -/
structure brcmf_if where
  drvr : brcmf_pub
  fwil_fwerr : Bool

/-- The shape the array declarations give the state: both byte arrays have
`BRCMF_MAX_FEATURE_BYTES` elements and the elements of the disable mask are `u8` values. -/
def brcmf_if.wf (K : brcmf_consts) (ifp : brcmf_if) : Prop :=
  ifp.drvr.feat_flags.length = K.BRCMF_MAX_FEATURE_BYTES ∧
  ifp.drvr.settings.feature_disable.length = K.BRCMF_MAX_FEATURE_BYTES ∧
  ∀ b ∈ ifp.drvr.settings.feature_disable, b < 256

instance (K : brcmf_consts) (ifp : brcmf_if) : Decidable (ifp.wf K) := by
  unfold brcmf_if.wf; infer_instance

/-- The firmware command channel of `fwil.c`. Each request is answered with an error code
(zero for success, a negative number otherwise) and, for the reads, the returned data; the
answer may depend on the error mode `fwil_fwerr` in force when the request is made. -/
structure brcmf_fil where
  brcmf_fil_iovar_int_get : Bool → String → Int × Nat
  brcmf_fil_iovar_data_set : Bool → String → Int
  brcmf_fil_iovar_data_get : Bool → String → Int × List Char
  brcmf_fil_xtlv_data_get : Bool → String → Nat → Int

/-! ## Bit operations on the flag array -/

/-- The kernel macro `BIT(n)`, that is `1UL << n`. -/
def BIT (n : Nat) : Nat := (1 <<< n) % 2 ^ 64

/-- The statement `flags[id / 8] |= BIT(id % 8)` on a `u8` array. -/
def feat_flags_set (flags : List Nat) (id : Nat) : List Nat :=
  flags.set (id / 8) ((flags.getD (id / 8) 0 ||| BIT (id % 8)) % 256)

/-- The statement `flags[id / 8] &= ~BIT(id % 8)` on a `u8` array; the complement is taken
in `unsigned long`. -/
def feat_flags_clear (flags : List Nat) (id : Nat) : List Nat :=
  flags.set (id / 8) ((flags.getD (id / 8) 0 &&& (2 ^ 64 - 1 - BIT (id % 8))) % 256)

/-- The expression `flags[id / 8] & BIT(id % 8)` converted to `bool`. -/
def feat_flags_test (flags : List Nat) (id : Nat) : Bool :=
  decide (flags.getD (id / 8) 0 &&& BIT (id % 8) ≠ 0)

/-- The accessor `brcmf_feat_is_enabled`. -/
def brcmf_feat_is_enabled (ifp : brcmf_if) (id : Nat) : Bool :=
  feat_flags_test ifp.drvr.feat_flags id

/-- The accessor `brcmf_feat_is_quirk_enabled`. -/
def brcmf_feat_is_quirk_enabled (ifp : brcmf_if) (quirk : Nat) : Bool :=
  decide (ifp.drvr.chip_quirks &&& BIT quirk ≠ 0)

/-- The driver state with its flag array replaced. -/
def brcmf_if.with_flags (ifp : brcmf_if) (flags : List Nat) : brcmf_if :=
  { ifp with drvr := { ifp.drvr with feat_flags := flags } }

/-! ## Capability string matcher -/

/-- The scan loop of the kernel library routine `strnstr` (`lib/string.c`, outside this
repository): while at least `strlen(s2)` of the `len` bytes are left, compare the next
`strlen(s2)` bytes of `s1` with `s2` by `memcmp` and advance by one byte. The loop is
bounded by `len` alone; it does not look for a terminating NUL in `s1`. -/
def strnstr_scan (s1 s2 : List Char) : Nat → Bool
  | 0 => false
  | len + 1 =>
    if s2.length ≤ len + 1 then
      if s1.take s2.length = s2 then true else strnstr_scan s1.tail s2 len
    else false

/-- The kernel library routine `strnstr(s1, s2, len)`, as the test `strnstr(...) != NULL`:
an empty `s2` is found at once, otherwise the scan loop decides. -/
def strnstr (s1 s2 : List Char) (len : Nat) : Bool :=
  if s2.length = 0 then true else strnstr_scan s1 s2 len

/-- The table `brcmf_fwcap_map`: feature ordinal and capability token. -/
def brcmf_fwcap_map (K : brcmf_consts) : List (Nat × String) :=
  [ (K.BRCMF_FEAT_MBSS, "mbss"),
    (K.BRCMF_FEAT_MCHAN, "mchan"),
    (K.BRCMF_FEAT_P2P, "p2p"),
    (K.BRCMF_FEAT_MONITOR, "monitor"),
    (K.BRCMF_FEAT_MONITOR_FLAG, "rtap"),
    (K.BRCMF_FEAT_MONITOR_FMT_RADIOTAP, "rtap"),
    (K.BRCMF_FEAT_DOT11H, "802.11h"),
    (K.BRCMF_FEAT_SAE, "sae "),
    (K.BRCMF_FEAT_FWAUTH, "idauth"),
    (K.BRCMF_FEAT_SAE_EXT, "sae_ext "),
    (K.BRCMF_FEAT_FBT, "fbt "),
    (K.BRCMF_FEAT_OKC, "okc"),
    (K.BRCMF_FEAT_GCMP, "gcmp"),
    (K.BRCMF_FEAT_OFFLOADS, "offloads"),
    (K.BRCMF_FEAT_ULP, "ulp"),
    (K.BRCMF_FEAT_PROPTXSTATUS, "proptxstatus"),
    (K.BRCMF_FEAT_OWE, "owe") ]

/-- The size of the buffer `caps` in `brcmf_feat_firmware_capabilities`. -/
def MAX_CAPS_BUFFER_SIZE : Nat := 768

/-- The loop of `brcmf_feat_firmware_capabilities` over the entries of the table: an entry
whose token `strnstr` finds in the buffer gets its bit set. -/
def fwcap_loop (caps : List Char) (map : List (Nat × String)) (flags : List Nat) : List Nat :=
  map.foldl
    (fun fl e => if strnstr caps e.2.toList MAX_CAPS_BUFFER_SIZE then feat_flags_set fl e.1 else fl)
    flags

/-- The function `brcmf_feat_firmware_capabilities`: read the buffer `caps` with the "cap"
request, return at once when the read fails, otherwise run the loop over the table. -/
def brcmf_feat_firmware_capabilities (K : brcmf_consts) (fw : brcmf_fil) (ifp : brcmf_if) :
    brcmf_if :=
  let r := fw.brcmf_fil_iovar_data_get ifp.fwil_fwerr "cap"
  if r.1 ≠ 0 then ifp
  else ifp.with_flags (fwcap_loop r.2 (brcmf_fwcap_map K) ifp.drvr.feat_flags)

/-! ## Probe executors -/

/-- The function `brcmf_feat_iovar_int_get`. -/
def brcmf_feat_iovar_int_get (K : brcmf_consts) (fw : brcmf_fil) (ifp : brcmf_if) (id : Nat)
    (name : String) : brcmf_if :=
  let ifp1 : brcmf_if := { ifp with fwil_fwerr := true }
  let err := (fw.brcmf_fil_iovar_int_get ifp1.fwil_fwerr name).1
  let ifp2 :=
    if err ≠ -(K.BRCMF_FW_UNSUPPORTED : Int) then
      ifp1.with_flags (feat_flags_set ifp1.drvr.feat_flags id)
    else ifp1
  { ifp2 with fwil_fwerr := false }

/-- The function `brcmf_feat_iovar_data_set`. -/
def brcmf_feat_iovar_data_set (K : brcmf_consts) (fw : brcmf_fil) (ifp : brcmf_if) (id : Nat)
    (name : String) : brcmf_if :=
  let ifp1 : brcmf_if := { ifp with fwil_fwerr := true }
  let err := fw.brcmf_fil_iovar_data_set ifp1.fwil_fwerr name
  let ifp2 :=
    if err ≠ -(K.BRCMF_FW_UNSUPPORTED : Int) then
      ifp1.with_flags (feat_flags_set ifp1.drvr.feat_flags id)
    else ifp1
  { ifp2 with fwil_fwerr := false }

/-- The function `brcmf_feat_iovar_enab_get`. -/
def brcmf_feat_iovar_enab_get (fw : brcmf_fil) (ifp : brcmf_if) (id : Nat) (name : String)
    (subcmd_id : Nat) : brcmf_if :=
  let ifp1 : brcmf_if := { ifp with fwil_fwerr := true }
  let err := fw.brcmf_fil_xtlv_data_get ifp1.fwil_fwerr name subcmd_id
  let ifp2 :=
    if err = 0 then ifp1.with_flags (feat_flags_set ifp1.drvr.feat_flags id) else ifp1
  { ifp2 with fwil_fwerr := false }

/-! ## The negotiation sequence `brcmf_feat_attach` -/

/-- Lines 251-258 of `brcmf_feat_attach`: the "pfn_gscan_cfg" probe, skipped for four chip
identities. -/
def attach_gscan (K : brcmf_consts) (fw : brcmf_fil) (ifp : brcmf_if) : brcmf_if :=
  if ifp.drvr.bus_if.chip ≠ K.BRCM_CC_43430_CHIP_ID ∧
     ifp.drvr.bus_if.chip ≠ K.BRCM_CC_4345_CHIP_ID ∧
     ifp.drvr.bus_if.chip ≠ K.BRCM_CC_43454_CHIP_ID ∧
     ifp.drvr.bus_if.chip ≠ K.CY_CC_43439_CHIP_ID then
    brcmf_feat_iovar_data_set K fw ifp K.BRCMF_FEAT_GSCAN "pfn_gscan_cfg"
  else ifp

/-- Lines 260-261 of `brcmf_feat_attach`: the "wowl" probe, made only when the bus reports
wake-on-wireless-LAN support. -/
def attach_wowl_probe (K : brcmf_consts) (fw : brcmf_fil) (ifp : brcmf_if) : brcmf_if :=
  if ifp.drvr.bus_if.wowl_supported then
    brcmf_feat_iovar_int_get K fw ifp K.BRCMF_FEAT_WOWL "wowl"
  else ifp

/-- Lines 262-274 of `brcmf_feat_attach`: when the WOWL bit is set, the "wowl_cap" query
and, when it returns no error, the three dependent bits. -/
def attach_wowl_cap (K : brcmf_consts) (fw : brcmf_fil) (ifp : brcmf_if) : brcmf_if :=
  if brcmf_feat_is_enabled ifp K.BRCMF_FEAT_WOWL then
    let r := fw.brcmf_fil_iovar_int_get ifp.fwil_fwerr "wowl_cap"
    if r.1 = 0 then
      let f1 := feat_flags_set ifp.drvr.feat_flags K.BRCMF_FEAT_WOWL_ARP_ND
      let f2 := if r.2 &&& K.BRCMF_WOWL_PFN_FOUND ≠ 0 then
                  feat_flags_set f1 K.BRCMF_FEAT_WOWL_ND else f1
      let f3 := if r.2 &&& K.BRCMF_WOWL_GTK_FAILURE ≠ 0 then
                  feat_flags_set f2 K.BRCMF_FEAT_WOWL_GTK else f2
      ifp.with_flags f3
    else ifp
  else ifp

/-- Lines 275-283 of `brcmf_feat_attach`: the `switch` that clears MBSS for two chips. -/
def attach_mbss (K : brcmf_consts) (ifp : brcmf_if) : brcmf_if :=
  if ifp.drvr.bus_if.chip = K.BRCM_CC_4330_CHIP_ID ∨
     ifp.drvr.bus_if.chip = K.BRCM_CC_43362_CHIP_ID then
    ifp.with_flags (feat_flags_clear ifp.drvr.feat_flags K.BRCMF_FEAT_MBSS)
  else ifp

/-- Lines 290-295 of `brcmf_feat_attach`: the "pfn_macaddr" read, which sets
SCAN_RANDOM_MAC when it returns no error. -/
def attach_pfn_macaddr (K : brcmf_consts) (fw : brcmf_fil) (ifp : brcmf_if) : brcmf_if :=
  if (fw.brcmf_fil_iovar_data_get ifp.fwil_fwerr "pfn_macaddr").1 = 0 then
    ifp.with_flags (feat_flags_set ifp.drvr.feat_flags K.BRCMF_FEAT_SCAN_RANDOM_MAC)
  else ifp

/-- Lines 250-298 of `brcmf_feat_attach`: everything before the disable mask. -/
def attach_detect (K : brcmf_consts) (fw : brcmf_fil) (ifp : brcmf_if) : brcmf_if :=
  let s := brcmf_feat_firmware_capabilities K fw ifp
  let s := attach_gscan K fw s
  let s := brcmf_feat_iovar_int_get K fw s K.BRCMF_FEAT_PNO "pfn"
  let s := attach_wowl_probe K fw s
  let s := attach_wowl_cap K fw s
  let s := attach_mbss K s
  let s := brcmf_feat_iovar_int_get K fw s K.BRCMF_FEAT_RSDB "rsdb_mode"
  let s := brcmf_feat_iovar_int_get K fw s K.BRCMF_FEAT_TDLS "tdls_enable"
  let s := brcmf_feat_iovar_int_get K fw s K.BRCMF_FEAT_MFP "mfp"
  let s := brcmf_feat_iovar_int_get K fw s K.BRCMF_FEAT_DUMP_OBSS "dump_obss"
  let s := brcmf_feat_iovar_int_get K fw s K.BRCMF_FEAT_SURVEY_DUMP "cca_survey_dump"
  let s := attach_pfn_macaddr K fw s
  let s := brcmf_feat_iovar_int_get K fw s K.BRCMF_FEAT_FWSUP "sup_wpa"
  brcmf_feat_iovar_enab_get fw s K.BRCMF_FEAT_TWT "twt" K.BRCMF_TWT_CMD_ENAB

/-- One iteration of the loop of lines 300-307: a non-zero mask byte is complemented (as an
`int`) and and-ed into the flag byte of the same index. -/
def disable_byte (disable flags : List Nat) (i : Nat) : List Nat :=
  if disable.getD i 0 ≠ 0 then
    flags.set i ((flags.getD i 0 &&& (2 ^ 32 - 1 - disable.getD i 0)) % 256)
  else flags

/-- Lines 300-307 of `brcmf_feat_attach`: the loop over the `BRCMF_MAX_FEATURE_BYTES`
bytes of `settings->feature_disable`. -/
def attach_disable (K : brcmf_consts) (ifp : brcmf_if) : brcmf_if :=
  ifp.with_flags
    ((List.range K.BRCMF_MAX_FEATURE_BYTES).foldl
      (disable_byte ifp.drvr.settings.feature_disable) ifp.drvr.feat_flags)

/-- Lines 309-320 of `brcmf_feat_attach`: the `switch` that sets the chip quirks. -/
def attach_quirks (K : brcmf_consts) (ifp : brcmf_if) : brcmf_if :=
  if ifp.drvr.bus_if.chip = K.BRCM_CC_43236_CHIP_ID then
    { ifp with drvr := { ifp.drvr with
        chip_quirks := (ifp.drvr.chip_quirks ||| BIT K.BRCMF_FEAT_QUIRK_AUTO_AUTH) % 2 ^ 32 } }
  else if ifp.drvr.bus_if.chip = K.BRCM_CC_4329_CHIP_ID then
    { ifp with drvr := { ifp.drvr with
        chip_quirks := (ifp.drvr.chip_quirks ||| BIT K.BRCMF_FEAT_QUIRK_NEED_MPC) % 2 ^ 32 } }
  else ifp

/-- The function `brcmf_feat_attach`. -/
def brcmf_feat_attach (K : brcmf_consts) (fw : brcmf_fil) (ifp : brcmf_if) : brcmf_if :=
  attach_quirks K (attach_disable K (attach_detect K fw ifp))

/-! ## Diagnostic dumps -/

/-- The kernel macro `DIV_ROUND_UP(n, d)`. -/
def DIV_ROUND_UP (n d : Nat) : Nat := (n + d - 1) / d

/-- What the features dump takes from outside the sources: the name tables that
`BRCMF_FEAT_LIST` and `BRCMF_QUIRK_LIST` expand to (`brcmf_feat_names[id]`,
`brcmf_quirk_names[id]`) and the closing member of the quirk enumeration. -/
structure brcmf_names where
  brcmf_feat_names : Nat → String
  brcmf_quirk_names : Nat → String
  BRCMF_FEAT_QUIRK_LAST : Nat

/-- One lowercase hexadecimal digit, as the conversion `%x` writes it. -/
def hex_digit (n : Nat) : Char :=
  if n < 10 then Char.ofNat (48 + n) else Char.ofNat (87 + n)

/-- The conversion `%02x` of a `u8` value: two hexadecimal digits. -/
def printf_02x (b : Nat) : List Char :=
  [hex_digit (b / 16 % 16), hex_digit (b % 16)]

/-- The conversion `%08x` of a `u32` value: eight hexadecimal digits. -/
def printf_08x (q : Nat) : List Char :=
  (List.range 8).reverse.map (fun k => hex_digit (q / 16 ^ k % 16))

/-- Lines 77 and 82 of `brcmf_feat_debugfs_read`: the local array `feats` of
`DIV_ROUND_UP(BRCMF_FEAT_LAST, 8)` bytes, filled from `feat_flags` by `memcpy`. -/
def debugfs_feats (K : brcmf_consts) (drvr : brcmf_pub) : List Nat :=
  (List.range (DIV_ROUND_UP K.BRCMF_FEAT_LAST 8)).map (fun i => drvr.feat_flags.getD i 0 % 256)

/-- Lines 80 and 85-86 of `brcmf_feat_debugfs_read`: `%02x` of `feats[i]` for every
`i < size`, where `u8 size = BRCMF_FEAT_LAST / 8`. -/
def debugfs_hex (K : brcmf_consts) (feats : List Nat) : List Char :=
  (List.range (K.BRCMF_FEAT_LAST / 8 % 256)).foldl
    (fun out i => out ++ printf_02x (feats.getD i 0)) []

/-- Lines 89-91 of `brcmf_feat_debugfs_read`: for every `id` below `BRCMF_FEAT_LAST` whose
bit is set in `feats`, a tab, the name of the feature and a line break. -/
def debugfs_feat_lines (K : brcmf_consts) (N : brcmf_names) (feats : List Nat) : List Char :=
  (List.range K.BRCMF_FEAT_LAST).foldl
    (fun out id =>
      if feats.getD (id / 8) 0 &&& BIT (id % 8) ≠ 0 then
        out ++ (Char.ofNat 9 :: (N.brcmf_feat_names id).toList ++ [Char.ofNat 10])
      else out) []

/-- Lines 94-96 of `brcmf_feat_debugfs_read`: for every quirk below
`BRCMF_FEAT_QUIRK_LAST` whose bit is set, a tab, the name of the quirk and a line break. -/
def debugfs_quirk_lines (N : brcmf_names) (quirks : Nat) : List Char :=
  (List.range N.BRCMF_FEAT_QUIRK_LAST).foldl
    (fun out id =>
      if quirks &&& BIT id ≠ 0 then
        out ++ (Char.ofNat 9 :: (N.brcmf_quirk_names id).toList ++ [Char.ofNat 10])
      else out) []

/-- The function `brcmf_feat_debugfs_read` of a `DEBUG` build: the return value and the
text written to the sequence file. Character 10 is the line break, character 9 the tab. -/
def brcmf_feat_debugfs_read (K : brcmf_consts) (N : brcmf_names) (drvr : brcmf_pub) :
    Int × List Char :=
  let feats := debugfs_feats K drvr
  let quirks := drvr.chip_quirks
  (0, "Features: ".toList ++ debugfs_hex K feats ++ [Char.ofNat 10] ++
      debugfs_feat_lines K N feats ++
      (Char.ofNat 10 :: "Quirks:   ".toList) ++ printf_08x quirks ++ [Char.ofNat 10] ++
      debugfs_quirk_lines N quirks)

/-- Lines 216 and 220 of `brcmf_feat_fwcap_debugfs_read`: the array
`char caps[MAX_CAPS_BUFFER_SIZE + 1] = { }` after the read. The read is given
`sizeof(caps)`, so it writes at most that many bytes of the answer; a byte it does not
write keeps the zero of the initialiser. -/
def fwcap_caps (answer : List Char) : List Char :=
  answer.take (MAX_CAPS_BUFFER_SIZE + 1) ++
    List.replicate (MAX_CAPS_BUFFER_SIZE + 1 - answer.length) (Char.ofNat 0)

/-- Lines 226-230 of `brcmf_feat_fwcap_debugfs_read` together with what `%s` prints of the
result. The loop `for (tmp = caps; *tmp; tmp++)` has no bound other than the NUL it looks
for: it yields the characters before the first NUL, every space replaced by a line break,
and it is `none` when the array holds no NUL, where the loop runs past the end of `caps`
and the behaviour of the C code is undefined. -/
def fwcap_scan : List Char → Option (List Char)
  | [] => none
  | c :: cs =>
    if c = Char.ofNat 0 then some []
    else (fwcap_scan cs).map (fun rest => (if c = ' ' then Char.ofNat 10 else c) :: rest)

/-- The function `brcmf_feat_fwcap_debugfs_read`: the return value and the text written to
the sequence file, or `none` when the scan leaves the array. After the rewritten text a
line break is printed when the text is not empty (`tmp > caps`) and its last character is
not a line break. -/
def brcmf_feat_fwcap_debugfs_read (fw : brcmf_fil) (ifp : brcmf_if) :
    Option (Int × List Char) :=
  let r := fw.brcmf_fil_iovar_data_get ifp.fwil_fwerr "cap"
  if r.1 ≠ 0 then some (r.1, [])
  else
    match fwcap_scan (fwcap_caps r.2) with
    | none => none
    | some caps =>
      if 0 < caps.length ∧ caps.getLast? ≠ some (Char.ofNat 10) then
        some (0, caps ++ [Char.ofNat 10])
      else some (0, caps)

/-- The capability blob as text: the characters of the buffer before its first NUL. -/
def caps_text (buf : List Char) : List Char :=
  buf.takeWhile (fun c => c ≠ Char.ofNat 0)

/-- The wording of the specification for the firmware-capabilities dump: the text with
every space rewritten to a line break. -/
def spaces_to_line_breaks (text : List Char) : List Char :=
  text.map (fun c => if c = ' ' then Char.ofNat 10 else c)

/-! ## Sample inputs -/

/-- A sample command channel: the "cap" read answers `cap`, every integer query answers
`q name`, and the data-set, sub-command and "pfn_macaddr" requests answer `ds`, `xt` and
`pm`; the answers do not depend on the error mode. -/
def sampleFil (cap : Int × List Char) (q : String → Int × Nat) (ds xt pm : Int) : brcmf_fil where
  brcmf_fil_iovar_int_get := fun _ name => q name
  brcmf_fil_iovar_data_set := fun _ _ => ds
  brcmf_fil_iovar_data_get := fun _ name => if name = "cap" then cap else (pm, [])
  brcmf_fil_xtlv_data_get := fun _ _ _ => xt

/-- A sample interface state with the given chip identity, bus WOWL flag, feature flags,
disable mask and error mode, and no quirks. -/
def sampleIf (chip : Nat) (wowl : Bool) (flags mask : List Nat) (fwerr : Bool) : brcmf_if where
  drvr := { feat_flags := flags, chip_quirks := 0,
            bus_if := { chip := chip, wowl_supported := wowl },
            settings := { feature_disable := mask } }
  fwil_fwerr := fwerr

/-- Sample name tables that go with `sampleConsts`: 35 feature names in ordinal order and
two quirk names. -/
def sampleNames : brcmf_names where
  brcmf_feat_names := fun id =>
    ([
     "MBSS", "MCHAN", "PNO", "WOWL", "P2P", "RSDB", "TDLS", "SCAN_RANDOM_MAC", "WOWL_ND",
     "WOWL_GTK", "WOWL_ARP_ND", "MFP", "GSCAN", "FWSUP", "MONITOR", "MONITOR_FLAG",
     "MONITOR_FMT_RADIOTAP", "MONITOR_FMT_HW_RX_HDR", "DOT11H", "SAE", "FWAUTH", "DUMP_OBSS",
     "SCAN_V2", "PMKID_V2", "PMKID_V3", "SURVEY_DUMP", "SAE_EXT", "FBT", "OKC", "GCMP", "TWT",
     "OFFLOADS", "ULP", "PROPTXSTATUS", "OWE"] : List String).getD id ""
  brcmf_quirk_names := fun id => (["AUTO_AUTH", "NEED_MPC"] : List String).getD id ""
  BRCMF_FEAT_QUIRK_LAST := 2

/-! ## Reading back the bit operations -/

/-- For a shift below the word size `BIT n` is the power of two. -/
theorem BIT_of_lt {n : Nat} (h : n < 64) : BIT n = 2 ^ n := by
  unfold BIT
  rw [Nat.shiftLeft_eq, Nat.one_mul]
  exact Nat.mod_eq_of_lt (Nat.pow_lt_pow_right (by decide) h)

/-- The bit mask of a feature inside its byte. -/
theorem BIT_mod8 (id : Nat) : BIT (id % 8) = 2 ^ (id % 8) :=
  BIT_of_lt (by omega)

/-- The C test `x & (1 << n)` is the test of bit `n`. -/
theorem land_two_pow_ne_zero (x n : Nat) : decide (x &&& 2 ^ n ≠ 0) = x.testBit n := by
  rw [Nat.land_comm, Nat.two_pow_and]
  cases h : x.testBit n <;> simp [Nat.pos_iff_ne_zero.mp (Nat.two_pow_pos n)]

/-- A flag test reads bit `id % 8` of byte `id / 8` (a byte outside the array reads as 0). -/
theorem feat_flags_test_eq (flags : List Nat) (id : Nat) :
    feat_flags_test flags id = (flags.getD (id / 8) 0).testBit (id % 8) := by
  unfold feat_flags_test
  rw [BIT_mod8, land_two_pow_ne_zero]

/-- Two features are the same when they share byte index and bit index. -/
theorem id_eq_iff (j id : Nat) : j = id ↔ j / 8 = id / 8 ∧ j % 8 = id % 8 := by
  omega

/-- Truncation to `u8` keeps the eight low bits. -/
theorem testBit_mod_256 (x k : Nat) (hk : k < 8) : (x % 256).testBit k = x.testBit k := by
  have h := Nat.testBit_mod_two_pow x 8 k
  simpa [hk] using h

/-- And-ing with the `w`-bit complement of `m` clears the bits of `m`. -/
theorem testBit_land_compl (x m w k : Nat) (hm : m < 2 ^ w) (hk : k < w) :
    (x &&& (2 ^ w - 1 - m)).testBit k = (x.testBit k && !m.testBit k) := by
  rw [Nat.testBit_land, Nat.sub_sub, Nat.add_comm 1 m, Nat.testBit_two_pow_sub_succ hm]
  simp [hk]

@[simp] theorem length_feat_flags_set (flags : List Nat) (id : Nat) :
    (feat_flags_set flags id).length = flags.length := by
  simp [feat_flags_set]

@[simp] theorem length_feat_flags_clear (flags : List Nat) (id : Nat) :
    (feat_flags_clear flags id).length = flags.length := by
  simp [feat_flags_clear]

/-- Setting the bit of `id` makes `id` read as set (when its byte is in the array) and
leaves every other bit as it was. -/
theorem feat_flags_test_set (flags : List Nat) (id j : Nat) :
    feat_flags_test (feat_flags_set flags id) j =
      ((decide (j = id) && decide (id / 8 < flags.length)) || feat_flags_test flags j) := by
  simp only [feat_flags_test_eq, feat_flags_set, BIT_mod8, List.getD_eq_getElem?_getD,
    List.getElem?_set]
  by_cases hb : id / 8 = j / 8
  · by_cases hl : id / 8 < flags.length
    · have hl2 : j / 8 < flags.length := hb ▸ hl
      simp only [hb, hl2, if_true, Option.getD_some]
      rw [testBit_mod_256 _ _ (Nat.mod_lt _ (by decide)), Nat.testBit_lor, Nat.testBit_two_pow]
      by_cases hm : id % 8 = j % 8
      · have : j = id := by omega
        subst this; simp
      · have : ¬ j = id := by omega
        simp [hm, this]
    · have hl2 : ¬ j / 8 < flags.length := hb ▸ hl
      have : flags[j / 8]? = none := List.getElem?_eq_none (by omega)
      simp [hb, hl2, this]
  · have : ¬ j = id := by omega
    simp [hb, this]

/-- Clearing the bit of `id` makes `id` read as clear and leaves every other bit as it
was. -/
theorem feat_flags_test_clear (flags : List Nat) (id j : Nat) :
    feat_flags_test (feat_flags_clear flags id) j =
      (feat_flags_test flags j && !decide (j = id)) := by
  simp only [feat_flags_test_eq, feat_flags_clear, BIT_mod8, List.getD_eq_getElem?_getD,
    List.getElem?_set]
  by_cases hb : id / 8 = j / 8
  · by_cases hl : id / 8 < flags.length
    · have hl2 : j / 8 < flags.length := hb ▸ hl
      simp only [hb, hl2, if_true, Option.getD_some]
      have h8 : j % 8 < 8 := Nat.mod_lt _ (by decide)
      rw [testBit_mod_256 _ _ h8,
        testBit_land_compl _ _ 64 _
          (Nat.pow_lt_pow_right (by decide) (by omega)) (by omega),
        Nat.testBit_two_pow]
      by_cases hm : id % 8 = j % 8
      · have : j = id := by omega
        subst this; simp
      · have : ¬ j = id := by omega
        simp [hm, this]
    · have hl2 : ¬ j / 8 < flags.length := hb ▸ hl
      have : flags[j / 8]? = none := List.getElem?_eq_none (by omega)
      simp [hb, hl2, this]
  · have : ¬ j = id := by omega
    simp [hb, this]

/-- A test in a zero byte is false. -/
theorem feat_flags_test_nil_byte (flags : List Nat) (j : Nat) (h : flags.getD (j / 8) 0 = 0) :
    feat_flags_test flags j = false := by
  rw [feat_flags_test_eq, h, Nat.zero_testBit]

/-- A bound on all elements bounds the defaulted read. -/
theorem getD_lt_of_forall (dis : List Nat) (i n : Nat) (hn : 0 < n)
    (hd : ∀ b ∈ dis, b < n) : dis.getD i 0 < n := by
  rw [List.getD_eq_getElem?_getD]
  by_cases h : i < dis.length
  · rw [List.getElem?_eq_getElem h]
    exact hd _ (List.getElem_mem h)
  · rw [List.getElem?_eq_none (by omega)]
    exact hn

/-- One iteration of the mask loop clears, in byte `i`, exactly the bits that are set in
the mask byte `i`. -/
theorem feat_flags_test_disable_byte (dis flags : List Nat) (i j : Nat)
    (hd : ∀ b ∈ dis, b < 256) :
    feat_flags_test (disable_byte dis flags i) j =
      (feat_flags_test flags j && !(decide (j / 8 = i) && feat_flags_test dis j)) := by
  unfold disable_byte
  by_cases hz : dis.getD i 0 = 0
  · have : ∀ h : j / 8 = i, feat_flags_test dis j = false :=
      fun h => feat_flags_test_nil_byte dis j (h ▸ hz)
    rw [if_neg (not_not.mpr hz)]
    by_cases hji : j / 8 = i
    · simp [this hji]
    · simp [hji]
  · rw [if_pos hz]
    by_cases hji : j / 8 = i
    · subst hji
      have h8 : j % 8 < 8 := Nat.mod_lt _ (by decide)
      have hlt : dis.getD (j / 8) 0 < 2 ^ 32 :=
        Nat.lt_of_lt_of_le (getD_lt_of_forall dis _ 256 (by decide) hd) (by decide)
      by_cases hl : j / 8 < flags.length
      · simp only [feat_flags_test_eq, List.getD_eq_getElem?_getD, List.getElem?_set, hl,
          if_true, Option.getD_some, decide_True, Bool.true_and]
        rw [testBit_mod_256 _ _ h8]
        simp only [← List.getD_eq_getElem?_getD]
        rw [testBit_land_compl _ _ 32 _ hlt (by omega)]
      · have hn : flags[j / 8]? = none := List.getElem?_eq_none (by omega)
        simp [feat_flags_test_eq, List.getElem?_set, hl, hn]
    · have hij : ¬ i = j / 8 := fun h => hji h.symm
      simp [feat_flags_test_eq, List.getElem?_set, hij, hji]

/-- The mask loop over the first `n` bytes clears exactly the bits of those bytes that are
set in the mask. -/
theorem feat_flags_test_disable_loop (dis : List Nat) (hd : ∀ b ∈ dis, b < 256) (n : Nat)
    (flags : List Nat) (j : Nat) :
    feat_flags_test ((List.range n).foldl (disable_byte dis) flags) j =
      (feat_flags_test flags j && !(decide (j / 8 < n) && feat_flags_test dis j)) := by
  induction n with
  | zero => simp
  | succ n ih =>
    rw [List.range_succ, List.foldl_append, List.foldl_cons, List.foldl_nil,
      feat_flags_test_disable_byte _ _ _ _ hd, ih]
    by_cases h1 : j / 8 < n
    · have h2 : j / 8 < n + 1 := by omega
      have h3 : ¬ j / 8 = n := by omega
      simp [h1, h2, h3]
    · by_cases h3 : j / 8 = n
      · simp [h3]
      · have h2 : ¬ j / 8 < n + 1 := by omega
        simp [h1, h2, h3]

/-- One iteration of the mask loop keeps the array size. -/
theorem length_disable_byte (dis flags : List Nat) (i : Nat) :
    (disable_byte dis flags i).length = flags.length := by
  unfold disable_byte; split <;> simp

/-- The mask loop keeps the array size. -/
theorem length_disable_loop (dis : List Nat) (n : Nat) (flags : List Nat) :
    ((List.range n).foldl (disable_byte dis) flags).length = flags.length := by
  induction n with
  | zero => simp
  | succ n ih =>
    rw [List.range_succ, List.foldl_append, List.foldl_cons, List.foldl_nil,
      length_disable_byte, ih]

/-! ## The substring scan -/

/-- The scan loop finds a non-empty `s2` exactly when `s2` is a contiguous part of the
first `len` bytes of `s1`. -/
theorem strnstr_scan_iff (s2 : List Char) (h2 : s2 ≠ []) (len : Nat) (s1 : List Char) :
    strnstr_scan s1 s2 len = true ↔ s2 <:+: s1.take len := by
  induction len generalizing s1 with
  | zero =>
    simp [strnstr_scan, h2]
  | succ len ih =>
    unfold strnstr_scan
    by_cases hle : s2.length ≤ len + 1
    · rw [if_pos hle]
      by_cases hp : s1.take s2.length = s2
      · rw [if_pos hp]
        refine iff_of_true rfl ?_
        have : s2 <+: s1.take (len + 1) := by
          have h := List.take_prefix s2.length (s1.take (len + 1))
          rwa [List.take_take, Nat.min_eq_left hle, hp] at h
        exact this.isInfix
      · rw [if_neg hp, ih]
        cases s1 with
        | nil => simp
        | cons a t =>
          simp only [List.tail_cons, List.take_succ_cons]
          rw [List.infix_cons_iff]
          constructor
          · exact fun h => Or.inr h
          · rintro (h | h)
            · exfalso
              apply hp
              have h' := List.prefix_iff_eq_take.mp h
              rw [← List.take_succ_cons, List.take_take, Nat.min_eq_left hle] at h'
              exact h'.symm
            · exact h
    · rw [if_neg hle]
      refine iff_of_false (by simp) ?_
      intro h
      have := h.length_le
      simp at this
      omega

/-- The routine `strnstr` finds `s2` exactly when `s2` is a contiguous part of the first
`len` bytes of `s1`. -/
theorem strnstr_iff (s1 s2 : List Char) (len : Nat) :
    strnstr s1 s2 len = true ↔ s2 <:+: s1.take len := by
  unfold strnstr
  by_cases h : s2 = []
  · subst h; simp
  · have hl : ¬ s2.length = 0 := fun e => h (List.length_eq_zero.mp e)
    rw [if_neg hl]
    exact strnstr_scan_iff s2 h len s1

/-! ## The stages of `brcmf_feat_attach`, one read-back lemma each -/

/-- The loop over the table keeps the array size. -/
theorem length_fwcap_loop (caps : List Char) (map : List (Nat × String)) (flags : List Nat) :
    (fwcap_loop caps map flags).length = flags.length := by
  unfold fwcap_loop
  induction map generalizing flags with
  | nil => rfl
  | cons e map ih =>
    rw [List.foldl_cons, ih]
    split <;> simp

/-- After the loop over the table a bit is set when it was set before or when the table has
an entry for it whose token `strnstr` finds in the buffer. -/
theorem feat_flags_test_fwcap_loop (caps : List Char) (map : List (Nat × String))
    (flags : List Nat) (j : Nat) :
    feat_flags_test (fwcap_loop caps map flags) j =
      (feat_flags_test flags j ||
        map.any (fun e => decide (j = e.1) && decide (e.1 / 8 < flags.length) &&
          strnstr caps e.2.toList MAX_CAPS_BUFFER_SIZE)) := by
  unfold fwcap_loop
  induction map generalizing flags with
  | nil => simp
  | cons e map ih =>
    rw [List.foldl_cons, ih, List.any_cons]
    by_cases hs : strnstr caps e.2.toList MAX_CAPS_BUFFER_SIZE = true
    · simp only [hs, if_true, feat_flags_test_set, length_feat_flags_set, Bool.and_true,
        Bool.or_assoc]
      rw [Bool.or_left_comm]
    · simp only [hs, Bool.and_false, Bool.false_or]
      rfl

/-- Replacing the flag array touches nothing else. -/
theorem with_flags_frame (ifp : brcmf_if) (flags : List Nat) :
    (ifp.with_flags flags).drvr.feat_flags = flags ∧
    (ifp.with_flags flags).drvr.bus_if = ifp.drvr.bus_if ∧
    (ifp.with_flags flags).drvr.settings = ifp.drvr.settings ∧
    (ifp.with_flags flags).drvr.chip_quirks = ifp.drvr.chip_quirks ∧
    (ifp.with_flags flags).fwil_fwerr = ifp.fwil_fwerr :=
  ⟨rfl, rfl, rfl, rfl, rfl⟩

/-- The accessor on a state with replaced flags tests the new flags. -/
theorem brcmf_feat_is_enabled_with_flags (ifp : brcmf_if) (flags : List Nat) (j : Nat) :
    brcmf_feat_is_enabled (ifp.with_flags flags) j = feat_flags_test flags j := rfl

/-- What the query probe leaves alone, and the error mode it leaves behind. -/
theorem int_get_frame (K : brcmf_consts) (fw : brcmf_fil) (ifp : brcmf_if) (id : Nat)
    (name : String) :
    (brcmf_feat_iovar_int_get K fw ifp id name).drvr.bus_if = ifp.drvr.bus_if ∧
    (brcmf_feat_iovar_int_get K fw ifp id name).drvr.settings = ifp.drvr.settings ∧
    (brcmf_feat_iovar_int_get K fw ifp id name).drvr.chip_quirks = ifp.drvr.chip_quirks ∧
    (brcmf_feat_iovar_int_get K fw ifp id name).drvr.feat_flags.length =
      ifp.drvr.feat_flags.length ∧
    (brcmf_feat_iovar_int_get K fw ifp id name).fwil_fwerr = false := by
  unfold brcmf_feat_iovar_int_get
  simp only [brcmf_if.with_flags]
  split <;> simp

/-- The flags after the query probe. -/
theorem int_get_flags (K : brcmf_consts) (fw : brcmf_fil) (ifp : brcmf_if) (id : Nat)
    (name : String) :
    (brcmf_feat_iovar_int_get K fw ifp id name).drvr.feat_flags =
      if (fw.brcmf_fil_iovar_int_get true name).1 ≠ -(K.BRCMF_FW_UNSUPPORTED : Int) then
        feat_flags_set ifp.drvr.feat_flags id
      else ifp.drvr.feat_flags := by
  unfold brcmf_feat_iovar_int_get
  simp only [brcmf_if.with_flags]
  split <;> rfl

/-- The accessor after the query probe. -/
theorem is_enabled_int_get (K : brcmf_consts) (fw : brcmf_fil) (ifp : brcmf_if) (id : Nat)
    (name : String) (j : Nat) :
    brcmf_feat_is_enabled (brcmf_feat_iovar_int_get K fw ifp id name) j =
      ((decide (j = id) && decide (id / 8 < ifp.drvr.feat_flags.length) &&
          decide ((fw.brcmf_fil_iovar_int_get true name).1 ≠ -(K.BRCMF_FW_UNSUPPORTED : Int)))
        || brcmf_feat_is_enabled ifp j) := by
  unfold brcmf_feat_is_enabled
  rw [int_get_flags]
  split
  · rename_i h; simp [feat_flags_test_set, h]
  · rename_i h; simp [h]

/-- What the data-set probe leaves alone, and the error mode it leaves behind. -/
theorem data_set_frame (K : brcmf_consts) (fw : brcmf_fil) (ifp : brcmf_if) (id : Nat)
    (name : String) :
    (brcmf_feat_iovar_data_set K fw ifp id name).drvr.bus_if = ifp.drvr.bus_if ∧
    (brcmf_feat_iovar_data_set K fw ifp id name).drvr.settings = ifp.drvr.settings ∧
    (brcmf_feat_iovar_data_set K fw ifp id name).drvr.chip_quirks = ifp.drvr.chip_quirks ∧
    (brcmf_feat_iovar_data_set K fw ifp id name).drvr.feat_flags.length =
      ifp.drvr.feat_flags.length ∧
    (brcmf_feat_iovar_data_set K fw ifp id name).fwil_fwerr = false := by
  unfold brcmf_feat_iovar_data_set
  simp only [brcmf_if.with_flags]
  split <;> simp

/-- The flags after the data-set probe. -/
theorem data_set_flags (K : brcmf_consts) (fw : brcmf_fil) (ifp : brcmf_if) (id : Nat)
    (name : String) :
    (brcmf_feat_iovar_data_set K fw ifp id name).drvr.feat_flags =
      if fw.brcmf_fil_iovar_data_set true name ≠ -(K.BRCMF_FW_UNSUPPORTED : Int) then
        feat_flags_set ifp.drvr.feat_flags id
      else ifp.drvr.feat_flags := by
  unfold brcmf_feat_iovar_data_set
  simp only [brcmf_if.with_flags]
  split <;> rfl

/-- The accessor after the data-set probe. -/
theorem is_enabled_data_set (K : brcmf_consts) (fw : brcmf_fil) (ifp : brcmf_if) (id : Nat)
    (name : String) (j : Nat) :
    brcmf_feat_is_enabled (brcmf_feat_iovar_data_set K fw ifp id name) j =
      ((decide (j = id) && decide (id / 8 < ifp.drvr.feat_flags.length) &&
          decide (fw.brcmf_fil_iovar_data_set true name ≠ -(K.BRCMF_FW_UNSUPPORTED : Int)))
        || brcmf_feat_is_enabled ifp j) := by
  unfold brcmf_feat_is_enabled
  rw [data_set_flags]
  split
  · rename_i h; simp [feat_flags_test_set, h]
  · rename_i h; simp [h]

/-- What the enable-get probe leaves alone, and the error mode it leaves behind. -/
theorem enab_get_frame (fw : brcmf_fil) (ifp : brcmf_if) (id : Nat) (name : String)
    (subcmd_id : Nat) :
    (brcmf_feat_iovar_enab_get fw ifp id name subcmd_id).drvr.bus_if = ifp.drvr.bus_if ∧
    (brcmf_feat_iovar_enab_get fw ifp id name subcmd_id).drvr.settings = ifp.drvr.settings ∧
    (brcmf_feat_iovar_enab_get fw ifp id name subcmd_id).drvr.chip_quirks =
      ifp.drvr.chip_quirks ∧
    (brcmf_feat_iovar_enab_get fw ifp id name subcmd_id).drvr.feat_flags.length =
      ifp.drvr.feat_flags.length ∧
    (brcmf_feat_iovar_enab_get fw ifp id name subcmd_id).fwil_fwerr = false := by
  unfold brcmf_feat_iovar_enab_get
  simp only [brcmf_if.with_flags]
  split <;> simp

/-- The flags after the enable-get probe. -/
theorem enab_get_flags (fw : brcmf_fil) (ifp : brcmf_if) (id : Nat) (name : String)
    (subcmd_id : Nat) :
    (brcmf_feat_iovar_enab_get fw ifp id name subcmd_id).drvr.feat_flags =
      if fw.brcmf_fil_xtlv_data_get true name subcmd_id = 0 then
        feat_flags_set ifp.drvr.feat_flags id
      else ifp.drvr.feat_flags := by
  unfold brcmf_feat_iovar_enab_get
  simp only [brcmf_if.with_flags]
  split <;> rfl

/-- The accessor after the enable-get probe. -/
theorem is_enabled_enab_get (fw : brcmf_fil) (ifp : brcmf_if) (id : Nat) (name : String)
    (subcmd_id : Nat) (j : Nat) :
    brcmf_feat_is_enabled (brcmf_feat_iovar_enab_get fw ifp id name subcmd_id) j =
      ((decide (j = id) && decide (id / 8 < ifp.drvr.feat_flags.length) &&
          decide (fw.brcmf_fil_xtlv_data_get true name subcmd_id = 0))
        || brcmf_feat_is_enabled ifp j) := by
  unfold brcmf_feat_is_enabled
  rw [enab_get_flags]
  split
  · rename_i h; simp [feat_flags_test_set, h]
  · rename_i h; simp [h]

/-- What the capability matcher leaves alone. -/
theorem firmware_capabilities_frame (K : brcmf_consts) (fw : brcmf_fil) (ifp : brcmf_if) :
    (brcmf_feat_firmware_capabilities K fw ifp).drvr.bus_if = ifp.drvr.bus_if ∧
    (brcmf_feat_firmware_capabilities K fw ifp).drvr.settings = ifp.drvr.settings ∧
    (brcmf_feat_firmware_capabilities K fw ifp).drvr.chip_quirks = ifp.drvr.chip_quirks ∧
    (brcmf_feat_firmware_capabilities K fw ifp).drvr.feat_flags.length =
      ifp.drvr.feat_flags.length ∧
    (brcmf_feat_firmware_capabilities K fw ifp).fwil_fwerr = ifp.fwil_fwerr := by
  unfold brcmf_feat_firmware_capabilities
  simp only [brcmf_if.with_flags]
  split <;> simp [length_fwcap_loop]

/-- The accessor after the capability matcher. -/
theorem is_enabled_firmware_capabilities (K : brcmf_consts) (fw : brcmf_fil) (ifp : brcmf_if)
    (j : Nat) :
    brcmf_feat_is_enabled (brcmf_feat_firmware_capabilities K fw ifp) j =
      (brcmf_feat_is_enabled ifp j ||
        (decide ((fw.brcmf_fil_iovar_data_get ifp.fwil_fwerr "cap").1 = 0) &&
          (brcmf_fwcap_map K).any (fun e =>
            decide (j = e.1) && decide (e.1 / 8 < ifp.drvr.feat_flags.length) &&
            strnstr (fw.brcmf_fil_iovar_data_get ifp.fwil_fwerr "cap").2 e.2.toList
              MAX_CAPS_BUFFER_SIZE))) := by
  unfold brcmf_feat_firmware_capabilities
  by_cases h : (fw.brcmf_fil_iovar_data_get ifp.fwil_fwerr "cap").1 = 0
  · simp only [h, ne_eq, not_true_eq_false, if_false, brcmf_feat_is_enabled_with_flags,
      feat_flags_test_fwcap_loop, decide_True, Bool.true_and]
    rfl
  · simp [h]

/-- What the "pfn_gscan_cfg" stage leaves alone. -/
theorem attach_gscan_frame (K : brcmf_consts) (fw : brcmf_fil) (ifp : brcmf_if) :
    (attach_gscan K fw ifp).drvr.bus_if = ifp.drvr.bus_if ∧
    (attach_gscan K fw ifp).drvr.settings = ifp.drvr.settings ∧
    (attach_gscan K fw ifp).drvr.chip_quirks = ifp.drvr.chip_quirks ∧
    (attach_gscan K fw ifp).drvr.feat_flags.length = ifp.drvr.feat_flags.length := by
  unfold attach_gscan
  split <;> simp [data_set_frame]

/-- The accessor after the "pfn_gscan_cfg" stage. -/
theorem is_enabled_attach_gscan (K : brcmf_consts) (fw : brcmf_fil) (ifp : brcmf_if)
    (j : Nat) :
    brcmf_feat_is_enabled (attach_gscan K fw ifp) j =
      ((decide (j = K.BRCMF_FEAT_GSCAN) &&
          decide (K.BRCMF_FEAT_GSCAN / 8 < ifp.drvr.feat_flags.length) &&
          decide (ifp.drvr.bus_if.chip ≠ K.BRCM_CC_43430_CHIP_ID ∧
            ifp.drvr.bus_if.chip ≠ K.BRCM_CC_4345_CHIP_ID ∧
            ifp.drvr.bus_if.chip ≠ K.BRCM_CC_43454_CHIP_ID ∧
            ifp.drvr.bus_if.chip ≠ K.CY_CC_43439_CHIP_ID) &&
          decide (fw.brcmf_fil_iovar_data_set true "pfn_gscan_cfg" ≠
            -(K.BRCMF_FW_UNSUPPORTED : Int)))
        || brcmf_feat_is_enabled ifp j) := by
  unfold attach_gscan
  split
  · rename_i h
    obtain ⟨h1, h2, h3, h4⟩ := h
    simp [is_enabled_data_set, h1, h2, h3, h4]
  · rename_i h; simp only [h, decide_False, Bool.and_false, Bool.false_and, Bool.false_or]

/-- What the "wowl" stage leaves alone. -/
theorem attach_wowl_probe_frame (K : brcmf_consts) (fw : brcmf_fil) (ifp : brcmf_if) :
    (attach_wowl_probe K fw ifp).drvr.bus_if = ifp.drvr.bus_if ∧
    (attach_wowl_probe K fw ifp).drvr.settings = ifp.drvr.settings ∧
    (attach_wowl_probe K fw ifp).drvr.chip_quirks = ifp.drvr.chip_quirks ∧
    (attach_wowl_probe K fw ifp).drvr.feat_flags.length = ifp.drvr.feat_flags.length := by
  unfold attach_wowl_probe
  split <;> simp [int_get_frame]

/-- The "wowl" stage leaves the error mode off when it was off. -/
theorem attach_wowl_probe_fwerr (K : brcmf_consts) (fw : brcmf_fil) (ifp : brcmf_if)
    (hf : ifp.fwil_fwerr = false) : (attach_wowl_probe K fw ifp).fwil_fwerr = false := by
  unfold attach_wowl_probe
  split <;> simp [int_get_frame, hf]

/-- The accessor after the "wowl" stage. -/
theorem is_enabled_attach_wowl_probe (K : brcmf_consts) (fw : brcmf_fil) (ifp : brcmf_if)
    (j : Nat) :
    brcmf_feat_is_enabled (attach_wowl_probe K fw ifp) j =
      ((decide (j = K.BRCMF_FEAT_WOWL) &&
          decide (K.BRCMF_FEAT_WOWL / 8 < ifp.drvr.feat_flags.length) &&
          ifp.drvr.bus_if.wowl_supported &&
          decide ((fw.brcmf_fil_iovar_int_get true "wowl").1 ≠
            -(K.BRCMF_FW_UNSUPPORTED : Int)))
        || brcmf_feat_is_enabled ifp j) := by
  unfold attach_wowl_probe
  split
  · rename_i h; simp [is_enabled_int_get, h]
  · rename_i h; simp [h]

/-- What the "wowl_cap" stage leaves alone. -/
theorem attach_wowl_cap_frame (K : brcmf_consts) (fw : brcmf_fil) (ifp : brcmf_if) :
    (attach_wowl_cap K fw ifp).drvr.bus_if = ifp.drvr.bus_if ∧
    (attach_wowl_cap K fw ifp).drvr.settings = ifp.drvr.settings ∧
    (attach_wowl_cap K fw ifp).drvr.chip_quirks = ifp.drvr.chip_quirks ∧
    (attach_wowl_cap K fw ifp).drvr.feat_flags.length = ifp.drvr.feat_flags.length ∧
    (attach_wowl_cap K fw ifp).fwil_fwerr = ifp.fwil_fwerr := by
  unfold attach_wowl_cap
  simp only [brcmf_if.with_flags]
  repeat' split
  all_goals simp

/-- The accessor after the "wowl_cap" stage, entered with the error mode off. -/
theorem is_enabled_attach_wowl_cap (K : brcmf_consts) (fw : brcmf_fil) (ifp : brcmf_if)
    (hf : ifp.fwil_fwerr = false) (j : Nat) :
    brcmf_feat_is_enabled (attach_wowl_cap K fw ifp) j =
      ((brcmf_feat_is_enabled ifp K.BRCMF_FEAT_WOWL &&
          decide ((fw.brcmf_fil_iovar_int_get false "wowl_cap").1 = 0) &&
          ((decide (j = K.BRCMF_FEAT_WOWL_ARP_ND) &&
              decide (K.BRCMF_FEAT_WOWL_ARP_ND / 8 < ifp.drvr.feat_flags.length))
            || (decide (j = K.BRCMF_FEAT_WOWL_ND) &&
              decide (K.BRCMF_FEAT_WOWL_ND / 8 < ifp.drvr.feat_flags.length) &&
              decide ((fw.brcmf_fil_iovar_int_get false "wowl_cap").2 &&&
                K.BRCMF_WOWL_PFN_FOUND ≠ 0))
            || (decide (j = K.BRCMF_FEAT_WOWL_GTK) &&
              decide (K.BRCMF_FEAT_WOWL_GTK / 8 < ifp.drvr.feat_flags.length) &&
              decide ((fw.brcmf_fil_iovar_int_get false "wowl_cap").2 &&&
                K.BRCMF_WOWL_GTK_FAILURE ≠ 0))))
        || brcmf_feat_is_enabled ifp j) := by
  have hset : ∀ (c : Prop) [Decidable c] (fl : List Nat) (id : Nat),
      feat_flags_test (if c then feat_flags_set fl id else fl) j =
        ((decide (j = id) && decide (id / 8 < fl.length) && decide c)
          || feat_flags_test fl j) := by
    intro c _ fl id
    by_cases hc : c <;> simp [hc, feat_flags_test_set]
  have hlen : ∀ (c : Prop) [Decidable c] (fl : List Nat) (id : Nat),
      (if c then feat_flags_set fl id else fl).length = fl.length := by
    intro c _ fl id
    by_cases hc : c <;> simp [hc]
  unfold attach_wowl_cap
  simp only [hf]
  by_cases he : brcmf_feat_is_enabled ifp K.BRCMF_FEAT_WOWL = true
  · by_cases hr : (fw.brcmf_fil_iovar_int_get false "wowl_cap").1 = 0
    · simp only [he, hr, if_true, brcmf_feat_is_enabled_with_flags, hset, hlen,
        length_feat_flags_set, feat_flags_test_set]
      unfold brcmf_feat_is_enabled
      rw [Bool.eq_iff_iff]
      simp
      tauto
    · simp [he, hr]
  · simp [he]

/-- What the MBSS override leaves alone. -/
theorem attach_mbss_frame (K : brcmf_consts) (ifp : brcmf_if) :
    (attach_mbss K ifp).drvr.bus_if = ifp.drvr.bus_if ∧
    (attach_mbss K ifp).drvr.settings = ifp.drvr.settings ∧
    (attach_mbss K ifp).drvr.chip_quirks = ifp.drvr.chip_quirks ∧
    (attach_mbss K ifp).drvr.feat_flags.length = ifp.drvr.feat_flags.length ∧
    (attach_mbss K ifp).fwil_fwerr = ifp.fwil_fwerr := by
  unfold attach_mbss
  simp only [brcmf_if.with_flags]
  split <;> simp

/-- The accessor after the MBSS override. -/
theorem is_enabled_attach_mbss (K : brcmf_consts) (ifp : brcmf_if) (j : Nat) :
    brcmf_feat_is_enabled (attach_mbss K ifp) j =
      (brcmf_feat_is_enabled ifp j &&
        !(decide (j = K.BRCMF_FEAT_MBSS) &&
          decide (ifp.drvr.bus_if.chip = K.BRCM_CC_4330_CHIP_ID ∨
            ifp.drvr.bus_if.chip = K.BRCM_CC_43362_CHIP_ID))) := by
  unfold attach_mbss
  split
  · rename_i h
    rw [brcmf_feat_is_enabled_with_flags, feat_flags_test_clear]
    simp only [h, decide_True, Bool.and_true]
    rfl
  · rename_i h
    simp only [h, decide_False, Bool.and_false, Bool.not_false, Bool.and_true]

/-- What the "pfn_macaddr" stage leaves alone. -/
theorem attach_pfn_macaddr_frame (K : brcmf_consts) (fw : brcmf_fil) (ifp : brcmf_if) :
    (attach_pfn_macaddr K fw ifp).drvr.bus_if = ifp.drvr.bus_if ∧
    (attach_pfn_macaddr K fw ifp).drvr.settings = ifp.drvr.settings ∧
    (attach_pfn_macaddr K fw ifp).drvr.chip_quirks = ifp.drvr.chip_quirks ∧
    (attach_pfn_macaddr K fw ifp).drvr.feat_flags.length = ifp.drvr.feat_flags.length ∧
    (attach_pfn_macaddr K fw ifp).fwil_fwerr = ifp.fwil_fwerr := by
  unfold attach_pfn_macaddr
  simp only [brcmf_if.with_flags]
  split <;> simp

/-- The accessor after the "pfn_macaddr" stage. -/
theorem is_enabled_attach_pfn_macaddr (K : brcmf_consts) (fw : brcmf_fil) (ifp : brcmf_if)
    (j : Nat) :
    brcmf_feat_is_enabled (attach_pfn_macaddr K fw ifp) j =
      ((decide (j = K.BRCMF_FEAT_SCAN_RANDOM_MAC) &&
          decide (K.BRCMF_FEAT_SCAN_RANDOM_MAC / 8 < ifp.drvr.feat_flags.length) &&
          decide ((fw.brcmf_fil_iovar_data_get ifp.fwil_fwerr "pfn_macaddr").1 = 0))
        || brcmf_feat_is_enabled ifp j) := by
  unfold attach_pfn_macaddr
  split
  · rename_i h
    rw [brcmf_feat_is_enabled_with_flags, feat_flags_test_set]
    simp only [h, decide_True, Bool.and_true]
    rfl
  · rename_i h
    simp only [h, decide_False, Bool.and_false, Bool.false_or]

/-- What the mask stage leaves alone. -/
theorem attach_disable_frame (K : brcmf_consts) (ifp : brcmf_if) :
    (attach_disable K ifp).drvr.bus_if = ifp.drvr.bus_if ∧
    (attach_disable K ifp).drvr.settings = ifp.drvr.settings ∧
    (attach_disable K ifp).drvr.chip_quirks = ifp.drvr.chip_quirks ∧
    (attach_disable K ifp).drvr.feat_flags.length = ifp.drvr.feat_flags.length ∧
    (attach_disable K ifp).fwil_fwerr = ifp.fwil_fwerr := by
  unfold attach_disable
  simp [brcmf_if.with_flags, length_disable_loop]

/-- The accessor after the mask stage. -/
theorem is_enabled_attach_disable (K : brcmf_consts) (ifp : brcmf_if)
    (hd : ∀ b ∈ ifp.drvr.settings.feature_disable, b < 256) (j : Nat) :
    brcmf_feat_is_enabled (attach_disable K ifp) j =
      (brcmf_feat_is_enabled ifp j &&
        !(decide (j / 8 < K.BRCMF_MAX_FEATURE_BYTES) &&
          feat_flags_test ifp.drvr.settings.feature_disable j)) := by
  unfold attach_disable
  rw [brcmf_feat_is_enabled_with_flags, feat_flags_test_disable_loop _ hd]
  rfl

/-- The quirk stage does not touch the feature flags. -/
theorem attach_quirks_frame (K : brcmf_consts) (ifp : brcmf_if) :
    (attach_quirks K ifp).drvr.feat_flags = ifp.drvr.feat_flags ∧
    (attach_quirks K ifp).drvr.bus_if = ifp.drvr.bus_if ∧
    (attach_quirks K ifp).drvr.settings = ifp.drvr.settings ∧
    (attach_quirks K ifp).fwil_fwerr = ifp.fwil_fwerr := by
  unfold attach_quirks
  repeat' split
  all_goals simp

/-- The accessor is not affected by the quirk stage. -/
theorem is_enabled_attach_quirks (K : brcmf_consts) (ifp : brcmf_if) (j : Nat) :
    brcmf_feat_is_enabled (attach_quirks K ifp) j = brcmf_feat_is_enabled ifp j := by
  unfold brcmf_feat_is_enabled
  rw [(attach_quirks_frame K ifp).1]

/-- Everything before the mask step leaves the bus data, the settings, the quirks and the
size of the flag array alone. -/
theorem attach_detect_frame (K : brcmf_consts) (fw : brcmf_fil) (ifp : brcmf_if) :
    (attach_detect K fw ifp).drvr.bus_if = ifp.drvr.bus_if ∧
    (attach_detect K fw ifp).drvr.settings = ifp.drvr.settings ∧
    (attach_detect K fw ifp).drvr.chip_quirks = ifp.drvr.chip_quirks ∧
    (attach_detect K fw ifp).drvr.feat_flags.length = ifp.drvr.feat_flags.length := by
  unfold attach_detect
  simp only [enab_get_frame, int_get_frame, attach_pfn_macaddr_frame, attach_mbss_frame,
    attach_wowl_cap_frame, attach_wowl_probe_frame, attach_gscan_frame,
    firmware_capabilities_frame, and_self]

/-- The final test of a feature is the test before the mask step, cleared when the mask has
the feature's bit. -/
theorem is_enabled_attach (K : brcmf_consts) (fw : brcmf_fil) (ifp : brcmf_if)
    (hd : ∀ b ∈ ifp.drvr.settings.feature_disable, b < 256) (j : Nat) :
    brcmf_feat_is_enabled (brcmf_feat_attach K fw ifp) j =
      (brcmf_feat_is_enabled (attach_detect K fw ifp) j &&
        !(decide (j / 8 < K.BRCMF_MAX_FEATURE_BYTES) &&
          feat_flags_test ifp.drvr.settings.feature_disable j)) := by
  unfold brcmf_feat_attach
  rw [is_enabled_attach_quirks, is_enabled_attach_disable, (attach_detect_frame K fw ifp).2.1]
  rw [(attach_detect_frame K fw ifp).2.1]
  exact hd

/-! ## Facts about the constants and about all-clear flags -/

/-- The named feature ordinals are pairwise different, in both orientations. -/
theorem wf_symm (K : brcmf_consts) (hK : K.wf) :
    K.feat_ids.Pairwise (fun a b => a ≠ b ∧ b ≠ a) :=
  hK.1.imp (fun h => ⟨h, fun e => h e.symm⟩)

/-- Every named feature has its bit inside the flag array. -/
theorem wf_bound (K : brcmf_consts) (hK : K.wf) :
    ∀ id ∈ K.feat_ids, id / 8 < K.BRCMF_MAX_FEATURE_BYTES := by
  intro id h
  have h1 := hK.2.1 id h
  have h2 := hK.2.2
  omega

/-- A test on an all-zero byte array is false. -/
theorem feat_flags_test_all_clear (flags : List Nat) (h0 : ∀ b ∈ flags, b = 0) (j : Nat) :
    feat_flags_test flags j = false := by
  apply feat_flags_test_nil_byte
  rw [List.getD_eq_getElem?_getD]
  by_cases h : j / 8 < flags.length
  · rw [List.getElem?_eq_getElem h]
    exact h0 _ (List.getElem_mem h)
  · rw [List.getElem?_eq_none (by omega)]
    rfl

/-- No feature is enabled in all-clear flags. -/
theorem is_enabled_all_clear (ifp : brcmf_if) (h0 : ∀ b ∈ ifp.drvr.feat_flags, b = 0)
    (j : Nat) : brcmf_feat_is_enabled ifp j = false :=
  feat_flags_test_all_clear _ h0 j

/-- From all-clear flags, the WOWL bit before the mask step is set exactly when the bus
supports wake-on-wireless-LAN and the "wowl" query did not answer with the sentinel. -/
theorem detect_wowl_of_clear (K : brcmf_consts) (fw : brcmf_fil) (ifp : brcmf_if)
    (hK : K.wf) (hifp : ifp.wf K) (h0 : ∀ b ∈ ifp.drvr.feat_flags, b = 0) :
    brcmf_feat_is_enabled (attach_detect K fw ifp) K.BRCMF_FEAT_WOWL =
      (ifp.drvr.bus_if.wowl_supported &&
        decide ((fw.brcmf_fil_iovar_int_get true "wowl").1 ≠
          -(K.BRCMF_FW_UNSUPPORTED : Int))) := by
  have hne := wf_symm K hK
  have hb := wf_bound K hK
  simp only [brcmf_consts.feat_ids, List.pairwise_cons, List.mem_cons, List.mem_singleton,
    forall_eq_or_imp, forall_eq, List.not_mem_nil, false_implies, implies_true, and_true,
    List.Pairwise.nil] at hne hb
  have hclr := is_enabled_all_clear ifp h0
  have hlen := hifp.1
  unfold attach_detect
  simp only [is_enabled_enab_get, is_enabled_int_get, is_enabled_attach_pfn_macaddr,
    is_enabled_attach_mbss, is_enabled_attach_wowl_cap, is_enabled_attach_wowl_probe,
    attach_wowl_probe_fwerr, is_enabled_attach_gscan, is_enabled_firmware_capabilities,
    int_get_frame, attach_pfn_macaddr_frame, attach_mbss_frame,
    attach_wowl_cap_frame, attach_wowl_probe_frame, attach_gscan_frame,
    firmware_capabilities_frame, hclr, hlen]
  simp [hne, hb, brcmf_fwcap_map]

/-- From all-clear flags, the three dependent bits before the mask step: each needs the
WOWL bit and a "wowl_cap" query without error, WOWL_ND and WOWL_GTK also their flag in the
answer. -/
theorem detect_wowl_deps_of_clear (K : brcmf_consts) (fw : brcmf_fil) (ifp : brcmf_if)
    (hK : K.wf) (hifp : ifp.wf K) (h0 : ∀ b ∈ ifp.drvr.feat_flags, b = 0) :
    brcmf_feat_is_enabled (attach_detect K fw ifp) K.BRCMF_FEAT_WOWL_ARP_ND =
      (brcmf_feat_is_enabled (attach_detect K fw ifp) K.BRCMF_FEAT_WOWL &&
        decide ((fw.brcmf_fil_iovar_int_get false "wowl_cap").1 = 0)) ∧
    brcmf_feat_is_enabled (attach_detect K fw ifp) K.BRCMF_FEAT_WOWL_ND =
      (brcmf_feat_is_enabled (attach_detect K fw ifp) K.BRCMF_FEAT_WOWL &&
        decide ((fw.brcmf_fil_iovar_int_get false "wowl_cap").1 = 0) &&
        decide ((fw.brcmf_fil_iovar_int_get false "wowl_cap").2 &&&
          K.BRCMF_WOWL_PFN_FOUND ≠ 0)) ∧
    brcmf_feat_is_enabled (attach_detect K fw ifp) K.BRCMF_FEAT_WOWL_GTK =
      (brcmf_feat_is_enabled (attach_detect K fw ifp) K.BRCMF_FEAT_WOWL &&
        decide ((fw.brcmf_fil_iovar_int_get false "wowl_cap").1 = 0) &&
        decide ((fw.brcmf_fil_iovar_int_get false "wowl_cap").2 &&&
          K.BRCMF_WOWL_GTK_FAILURE ≠ 0)) := by
  rw [detect_wowl_of_clear K fw ifp hK hifp h0]
  have hne := wf_symm K hK
  have hb := wf_bound K hK
  simp only [brcmf_consts.feat_ids, List.pairwise_cons, List.mem_cons, List.mem_singleton,
    forall_eq_or_imp, forall_eq, List.not_mem_nil, false_implies, implies_true, and_true,
    List.Pairwise.nil] at hne hb
  have hclr := is_enabled_all_clear ifp h0
  have hlen := hifp.1
  unfold attach_detect
  simp only [is_enabled_enab_get, is_enabled_int_get, is_enabled_attach_pfn_macaddr,
    is_enabled_attach_mbss, is_enabled_attach_wowl_cap, is_enabled_attach_wowl_probe,
    attach_wowl_probe_fwerr, is_enabled_attach_gscan, is_enabled_firmware_capabilities,
    int_get_frame, attach_pfn_macaddr_frame, attach_mbss_frame,
    attach_wowl_cap_frame, attach_wowl_probe_frame, attach_gscan_frame,
    firmware_capabilities_frame, hclr, hlen]
  refine ⟨?_, ?_, ?_⟩ <;> simp [hne, hb, brcmf_fwcap_map]

/-! ## Further facts used by the claims -/

/-- The quirk bitmap after `brcmf_feat_attach` is the quirk `switch` applied to the initial
bitmap; it depends on the chip identity and the initial bitmap only. -/
theorem attach_chip_quirks (K : brcmf_consts) (fw : brcmf_fil) (ifp : brcmf_if) :
    (brcmf_feat_attach K fw ifp).drvr.chip_quirks =
      if ifp.drvr.bus_if.chip = K.BRCM_CC_43236_CHIP_ID then
        (ifp.drvr.chip_quirks ||| BIT K.BRCMF_FEAT_QUIRK_AUTO_AUTH) % 2 ^ 32
      else if ifp.drvr.bus_if.chip = K.BRCM_CC_4329_CHIP_ID then
        (ifp.drvr.chip_quirks ||| BIT K.BRCMF_FEAT_QUIRK_NEED_MPC) % 2 ^ 32
      else ifp.drvr.chip_quirks := by
  unfold brcmf_feat_attach attach_quirks
  simp only [attach_disable_frame, attach_detect_frame]
  repeat' split
  all_goals simp [attach_disable_frame, attach_detect_frame]

/-- The test `quirks & BIT(q)` on a bitmap that holds the single bit `a`. -/
theorem quirk_test_single (a q : Nat) (ha : a < 32) :
    decide ((0 ||| BIT a) % 2 ^ 32 &&& BIT q ≠ 0) = decide (q = a) := by
  rw [Nat.zero_or, BIT_of_lt (by omega : a < 64),
    Nat.mod_eq_of_lt (Nat.pow_lt_pow_right (by decide) ha)]
  by_cases hq : q < 64
  · rw [BIT_of_lt hq, land_two_pow_ne_zero, Nat.testBit_two_pow]
    by_cases h : a = q
    · simp [h]
    · have : ¬ q = a := fun e => h e.symm
      simp [h, this]
  · have hz : BIT q = 0 := by
      unfold BIT
      rw [Nat.shiftLeft_eq, Nat.one_mul]
      exact Nat.mod_eq_zero_of_dvd (Nat.pow_dvd_pow 2 (by omega))
    have : ¬ q = a := by omega
    simp [hz, this]

/-- From all-clear flags, the GSCAN bit before the mask step is set exactly when the chip
is none of the four chips of the skip list and the "pfn_gscan_cfg" probe did not answer
with the sentinel. -/
theorem detect_gscan_of_clear (K : brcmf_consts) (fw : brcmf_fil) (ifp : brcmf_if)
    (hK : K.wf) (hifp : ifp.wf K) (h0 : ∀ b ∈ ifp.drvr.feat_flags, b = 0) :
    brcmf_feat_is_enabled (attach_detect K fw ifp) K.BRCMF_FEAT_GSCAN =
      (decide (ifp.drvr.bus_if.chip ≠ K.BRCM_CC_43430_CHIP_ID ∧
          ifp.drvr.bus_if.chip ≠ K.BRCM_CC_4345_CHIP_ID ∧
          ifp.drvr.bus_if.chip ≠ K.BRCM_CC_43454_CHIP_ID ∧
          ifp.drvr.bus_if.chip ≠ K.CY_CC_43439_CHIP_ID) &&
        decide (fw.brcmf_fil_iovar_data_set true "pfn_gscan_cfg" ≠
          -(K.BRCMF_FW_UNSUPPORTED : Int))) := by
  have hne := wf_symm K hK
  have hb := wf_bound K hK
  simp only [brcmf_consts.feat_ids, List.pairwise_cons, List.mem_cons, List.mem_singleton,
    forall_eq_or_imp, forall_eq, List.not_mem_nil, false_implies, implies_true, and_true,
    List.Pairwise.nil] at hne hb
  have hclr := is_enabled_all_clear ifp h0
  have hlen := hifp.1
  unfold attach_detect
  simp only [is_enabled_enab_get, is_enabled_int_get, is_enabled_attach_pfn_macaddr,
    is_enabled_attach_mbss, is_enabled_attach_wowl_cap, is_enabled_attach_wowl_probe,
    attach_wowl_probe_fwerr, is_enabled_attach_gscan, is_enabled_firmware_capabilities,
    int_get_frame, attach_pfn_macaddr_frame, attach_mbss_frame,
    attach_wowl_cap_frame, attach_wowl_probe_frame, attach_gscan_frame,
    firmware_capabilities_frame, hclr, hlen]
  simp [hne, hb, brcmf_fwcap_map]

/-- Before the mask step, a feature other than MBSS and GSCAN reads the same in two runs
whose initial states differ in the chip identity only. -/
theorem detect_chip_independent (K : brcmf_consts) (fw : brcmf_fil) (ifp1 ifp2 : brcmf_if)
    (hK : K.wf)
    (hflags : ifp2.drvr.feat_flags = ifp1.drvr.feat_flags)
    (hwowl : ifp2.drvr.bus_if.wowl_supported = ifp1.drvr.bus_if.wowl_supported)
    (hfwerr : ifp2.fwil_fwerr = ifp1.fwil_fwerr)
    (j : Nat) (hj1 : j ≠ K.BRCMF_FEAT_MBSS) (hj2 : j ≠ K.BRCMF_FEAT_GSCAN) :
    brcmf_feat_is_enabled (attach_detect K fw ifp2) j =
      brcmf_feat_is_enabled (attach_detect K fw ifp1) j := by
  have hne := wf_symm K hK
  simp only [brcmf_consts.feat_ids, List.pairwise_cons, List.mem_cons, List.mem_singleton,
    forall_eq_or_imp, forall_eq, List.not_mem_nil, false_implies, implies_true, and_true,
    List.Pairwise.nil] at hne
  have hg : K.BRCMF_FEAT_WOWL ≠ K.BRCMF_FEAT_GSCAN := by simp [hne]
  have e1 : ∀ i, brcmf_feat_is_enabled ifp2 i = brcmf_feat_is_enabled ifp1 i := by
    intro i; unfold brcmf_feat_is_enabled; rw [hflags]
  unfold attach_detect
  simp only [is_enabled_enab_get, is_enabled_int_get, is_enabled_attach_pfn_macaddr,
    is_enabled_attach_mbss, is_enabled_attach_wowl_cap, is_enabled_attach_wowl_probe,
    attach_wowl_probe_fwerr, is_enabled_attach_gscan, is_enabled_firmware_capabilities,
    int_get_frame, attach_pfn_macaddr_frame, attach_mbss_frame,
    attach_wowl_cap_frame, attach_wowl_probe_frame, attach_gscan_frame,
    firmware_capabilities_frame, hflags, hwowl, hfwerr, e1, hj1, hj2, hg,
    decide_False, Bool.false_and, Bool.not_false, Bool.and_true, Bool.false_or]

/-- The loop over the table changes nothing when `strnstr` finds no token of the table. -/
theorem fwcap_loop_no_match (caps : List Char) (map : List (Nat × String)) (flags : List Nat)
    (h : ∀ e ∈ map, strnstr caps e.2.toList MAX_CAPS_BUFFER_SIZE = false) :
    fwcap_loop caps map flags = flags := by
  unfold fwcap_loop
  induction map generalizing flags with
  | nil => rfl
  | cons e map ih =>
    rw [List.foldl_cons, h e (List.mem_cons_self _ _)]
    exact ih flags (fun e' he' => h e' (List.mem_cons_of_mem _ he'))

/-- A list without the character `c` that is a contiguous part of `a` followed by copies of
`c` is a contiguous part of `a`. -/
theorem infix_of_infix_append_replicate (t a : List Char) (c : Char) (hc : c ∉ t) (m : Nat)
    (h : t <:+: a ++ List.replicate m c) : t <:+: a := by
  induction m with
  | zero => simpa using h
  | succ m ih =>
    rw [List.replicate_succ', ← List.append_assoc, List.infix_concat_iff] at h
    rcases h with h | h
    · rcases List.suffix_concat_iff.mp h with h | ⟨u, hu, _⟩
      · subst h; exact List.nil_infix
      · exfalso; apply hc; rw [hu]; simp
    · exact ih h

/-- On a buffer that holds `text` followed by NUL bytes, `strnstr` finds a token without
NUL exactly when the token is a contiguous part of `text` (for a text that fits the
length). -/
theorem strnstr_padded (text t : List Char) (n : Nat) (hc : Char.ofNat 0 ∉ t)
    (hlen : text.length ≤ MAX_CAPS_BUFFER_SIZE) :
    strnstr (text ++ List.replicate n (Char.ofNat 0)) t MAX_CAPS_BUFFER_SIZE =
      decide (t <:+: text) := by
  rw [Bool.eq_iff_iff, strnstr_iff, decide_eq_true_eq, List.take_append_eq_append_take,
    List.take_of_length_le hlen, List.take_replicate]
  constructor
  · exact infix_of_infix_append_replicate t text _ hc _
  · intro h
    exact h.trans (List.infix_append' [] text _)

/-- A list that ends with a given element has that element as its last one. -/
theorem getLast?_of_suffix_singleton (l : List Char) (c : Char) (h : [c] <:+ l) :
    l.getLast? = some c := by
  obtain ⟨t, rfl⟩ := h
  simp

/-- The hex part of the "Features:" line has two digits for each of the
`BRCMF_FEAT_LAST / 8` (rounded down, as a `u8`) bytes the loop visits. -/
theorem length_debugfs_hex (K : brcmf_consts) (feats : List Nat) :
    (debugfs_hex K feats).length = 2 * (K.BRCMF_FEAT_LAST / 8 % 256) := by
  unfold debugfs_hex
  generalize K.BRCMF_FEAT_LAST / 8 % 256 = n
  induction n with
  | zero => rfl
  | succ n ih =>
    rw [List.range_succ, List.foldl_append, List.foldl_cons, List.foldl_nil,
      List.length_append, ih]
    simp [printf_02x]
    omega

/-- The array of the firmware-capabilities dump holds a NUL exactly when the answer is
shorter than the array or has a NUL among the bytes that fit. -/
theorem mem_fwcap_caps (answer : List Char) :
    Char.ofNat 0 ∈ fwcap_caps answer ↔
      (answer.length ≤ MAX_CAPS_BUFFER_SIZE ∨
        Char.ofNat 0 ∈ answer.take (MAX_CAPS_BUFFER_SIZE + 1)) := by
  unfold fwcap_caps
  rw [List.mem_append, List.mem_replicate]
  constructor
  · rintro (h | ⟨h, _⟩)
    · exact Or.inr h
    · exact Or.inl (by omega)
  · rintro (h | h)
    · exact Or.inr ⟨by omega, rfl⟩
    · exact Or.inl h

/-- The scan of the firmware-capabilities dump: on an array with a NUL it yields the text
before the first NUL with every space rewritten to a line break, on an array without NUL it
leaves the array. -/
theorem fwcap_scan_eq (buf : List Char) :
    fwcap_scan buf =
      if Char.ofNat 0 ∈ buf then some (spaces_to_line_breaks (caps_text buf)) else none := by
  induction buf with
  | nil => rfl
  | cons c cs ih =>
    unfold fwcap_scan
    by_cases h : c = Char.ofNat 0
    · simp [h, caps_text, spaces_to_line_breaks]
    · have h2 : ¬ Char.ofNat 0 = c := fun e => h e.symm
      rw [if_neg h, ih]
      by_cases hm : Char.ofNat 0 ∈ cs
      · simp [h, h2, hm, caps_text, spaces_to_line_breaks]
      · simp [h, h2, hm]

/-! ## The claims -/

/-- C1. Disable mask always wins: after `brcmf_feat_attach`, a feature whose bit lies in
the flag array and is set in `settings->feature_disable` reads as disabled, and a feature
whose bit is not in the mask reads as it did just before the mask step (the state left by
lines 250-298), whatever the blob, the probe answers, the chip and the initial flags. -/
theorem C1_disable_mask_wins (K : brcmf_consts) (fw : brcmf_fil) (ifp : brcmf_if)
    (hd : ∀ b ∈ ifp.drvr.settings.feature_disable, b < 256) (id : Nat)
    (hid : id / 8 < K.BRCMF_MAX_FEATURE_BYTES) :
    (feat_flags_test ifp.drvr.settings.feature_disable id = true →
      brcmf_feat_is_enabled (brcmf_feat_attach K fw ifp) id = false) ∧
    (feat_flags_test ifp.drvr.settings.feature_disable id = false →
      brcmf_feat_is_enabled (brcmf_feat_attach K fw ifp) id =
        brcmf_feat_is_enabled (attach_detect K fw ifp) id) := by
  rw [is_enabled_attach K fw ifp hd]
  constructor
  · intro h; simp [h, hid]
  · intro h; simp [h]

/-- C1 at a sample input: with the P2P bit in the mask the P2P feature ends disabled. -/
theorem C1_disable_mask_wins_witness :
    brcmf_feat_is_enabled
      (brcmf_feat_attach sampleConsts
        (sampleFil (-5, []) (fun _ => (0, 0)) 0 0 0)
        (sampleIf 1 true [0, 0, 0, 0, 0] [16, 0, 0, 0, 0] false))
      sampleConsts.BRCMF_FEAT_P2P = false :=
  (C1_disable_mask_wins sampleConsts (sampleFil (-5, []) (fun _ => (0, 0)) 0 0 0)
    (sampleIf 1 true [0, 0, 0, 0, 0] [16, 0, 0, 0, 0] false) (by decide)
    sampleConsts.BRCMF_FEAT_P2P (by decide)).1 (by decide)

/-- C2. For a chip identity in the MBSS-exclusion set the MBSS bit is clear after
`brcmf_feat_attach`, whatever the blob, the probe answers, the disable mask and the initial
flags. -/
theorem C2_mbss_excluded_chip (K : brcmf_consts) (fw : brcmf_fil) (ifp : brcmf_if)
    (hK : K.wf) (hifp : ifp.wf K)
    (hchip : ifp.drvr.bus_if.chip = K.BRCM_CC_4330_CHIP_ID ∨
      ifp.drvr.bus_if.chip = K.BRCM_CC_43362_CHIP_ID) :
    brcmf_feat_is_enabled (brcmf_feat_attach K fw ifp) K.BRCMF_FEAT_MBSS = false := by
  have hne := wf_symm K hK
  simp only [brcmf_consts.feat_ids, List.pairwise_cons, List.mem_cons, List.mem_singleton,
    forall_eq_or_imp, forall_eq, List.not_mem_nil, false_implies, implies_true, and_true,
    List.Pairwise.nil] at hne
  rw [is_enabled_attach K fw ifp hifp.2.2]
  unfold attach_detect
  simp only [is_enabled_enab_get, is_enabled_int_get, is_enabled_attach_pfn_macaddr,
    is_enabled_attach_mbss, int_get_frame, attach_pfn_macaddr_frame, attach_mbss_frame,
    attach_wowl_cap_frame, attach_wowl_probe_frame, attach_gscan_frame,
    firmware_capabilities_frame, hchip]
  simp [hne]

/-- C2 at a sample input: chip 0x4330 and a blob that contains "mbss". -/
theorem C2_mbss_excluded_chip_witness :
    brcmf_feat_is_enabled
      (brcmf_feat_attach sampleConsts
        (sampleFil (0, "mbss ".toList) (fun _ => (0, 0)) 0 0 0)
        (sampleIf 0x4330 true [0, 0, 0, 0, 0] [0, 0, 0, 0, 0] false))
      sampleConsts.BRCMF_FEAT_MBSS = false :=
  C2_mbss_excluded_chip sampleConsts (sampleFil (0, "mbss ".toList) (fun _ => (0, 0)) 0 0 0)
    (sampleIf 0x4330 true [0, 0, 0, 0, 0] [0, 0, 0, 0, 0] false) (by decide) (by decide)
    (Or.inl rfl)

/-- C3, as stated, fails: chip 1 is not in the exclusion set, the "cap" read succeeds with
the blob "mbss ", and the disable mask has the MBSS bit; the MBSS bit ends clear. -/
theorem C3_counterexample :
    (1 ≠ sampleConsts.BRCM_CC_4330_CHIP_ID ∧ 1 ≠ sampleConsts.BRCM_CC_43362_CHIP_ID) ∧
    (sampleFil (0, "mbss ".toList) (fun _ => (0, 0)) 0 0 0).brcmf_fil_iovar_data_get false "cap"
      = (0, "mbss ".toList) ∧
    "mbss".toList <:+: "mbss ".toList ∧
    brcmf_feat_is_enabled
      (brcmf_feat_attach sampleConsts
        (sampleFil (0, "mbss ".toList) (fun _ => (0, 0)) 0 0 0)
        (sampleIf 1 true [0, 0, 0, 0, 0] [1, 0, 0, 0, 0] false))
      sampleConsts.BRCMF_FEAT_MBSS = false := by
  refine ⟨by decide, rfl, ⟨[], [' '], rfl⟩, ?_⟩
  have hm : feat_flags_test
      (sampleIf 1 true [0, 0, 0, 0, 0] [1, 0, 0, 0, 0] false).drvr.settings.feature_disable
      sampleConsts.BRCMF_FEAT_MBSS = true := by decide
  have hi : decide (sampleConsts.BRCMF_FEAT_MBSS / 8 < sampleConsts.BRCMF_MAX_FEATURE_BYTES)
      = true := by decide
  rw [is_enabled_attach _ _ _ (by decide), hm, hi]
  simp

/-- C3 (amended). For a chip identity outside the MBSS-exclusion set, when the "cap" read
succeeds, the buffer contains "mbss" and the disable mask does not have the MBSS bit, the
MBSS bit is set after `brcmf_feat_attach`, whatever the other probes answer. -/
theorem C3_mbss_reported (K : brcmf_consts) (fw : brcmf_fil) (ifp : brcmf_if)
    (hK : K.wf) (hifp : ifp.wf K)
    (hchip : ifp.drvr.bus_if.chip ≠ K.BRCM_CC_4330_CHIP_ID ∧
      ifp.drvr.bus_if.chip ≠ K.BRCM_CC_43362_CHIP_ID)
    (hcap : (fw.brcmf_fil_iovar_data_get ifp.fwil_fwerr "cap").1 = 0)
    (hblob : "mbss".toList <:+:
      (fw.brcmf_fil_iovar_data_get ifp.fwil_fwerr "cap").2.take MAX_CAPS_BUFFER_SIZE)
    (hmask : feat_flags_test ifp.drvr.settings.feature_disable K.BRCMF_FEAT_MBSS = false) :
    brcmf_feat_is_enabled (brcmf_feat_attach K fw ifp) K.BRCMF_FEAT_MBSS = true := by
  have hb := wf_bound K hK
  simp only [brcmf_consts.feat_ids, List.mem_cons, List.mem_singleton,
    forall_eq_or_imp, forall_eq, List.not_mem_nil, false_implies, implies_true, and_true]
    at hb
  have hs := (strnstr_iff _ _ _).mpr hblob
  have hlen := hifp.1
  rw [is_enabled_attach K fw ifp hifp.2.2]
  unfold attach_detect
  simp only [is_enabled_enab_get, is_enabled_int_get, is_enabled_attach_pfn_macaddr,
    is_enabled_attach_mbss, is_enabled_attach_wowl_cap, is_enabled_attach_wowl_probe,
    attach_wowl_probe_fwerr, is_enabled_attach_gscan, is_enabled_firmware_capabilities,
    int_get_frame, attach_pfn_macaddr_frame, attach_mbss_frame,
    attach_wowl_cap_frame, attach_wowl_probe_frame, attach_gscan_frame,
    firmware_capabilities_frame, hmask, hlen, hcap, hchip.1, hchip.2]
  simp only [brcmf_fwcap_map, List.any_cons, hs, hb.1]
  simp

/-- C3 (amended) at a sample input: chip 1, blob "mbss ", empty mask. -/
theorem C3_mbss_reported_witness :
    brcmf_feat_is_enabled
      (brcmf_feat_attach sampleConsts
        (sampleFil (0, "mbss ".toList) (fun _ => (0, 0)) 0 0 0)
        (sampleIf 1 true [0, 0, 0, 0, 0] [0, 0, 0, 0, 0] false))
      sampleConsts.BRCMF_FEAT_MBSS = true :=
  C3_mbss_reported sampleConsts (sampleFil (0, "mbss ".toList) (fun _ => (0, 0)) 0 0 0)
    (sampleIf 1 true [0, 0, 0, 0, 0] [0, 0, 0, 0, 0] false) (by decide) (by decide)
    (by decide) rfl ⟨[], [' '], rfl⟩ (by decide)

/-- C4. Success criterion of the query probe and of the data-set probe: with `err` the
result of the round trip, an `err` other than `-BRCMF_FW_UNSUPPORTED` sets the bit of `id`
(also `err = 0`, and also any other error code), the sentinel leaves the flags as they
were, and so from a clear bit the bit ends set exactly when `err` is not the sentinel. -/
theorem C4_query_data_set_criterion (K : brcmf_consts) (fw : brcmf_fil) (ifp : brcmf_if)
    (id : Nat) (name : String) (hid : id / 8 < ifp.drvr.feat_flags.length) :
    ((fw.brcmf_fil_iovar_int_get true name).1 ≠ -(K.BRCMF_FW_UNSUPPORTED : Int) →
      brcmf_feat_is_enabled (brcmf_feat_iovar_int_get K fw ifp id name) id = true) ∧
    ((fw.brcmf_fil_iovar_int_get true name).1 = -(K.BRCMF_FW_UNSUPPORTED : Int) →
      (brcmf_feat_iovar_int_get K fw ifp id name).drvr.feat_flags = ifp.drvr.feat_flags) ∧
    (brcmf_feat_is_enabled ifp id = false →
      (brcmf_feat_is_enabled (brcmf_feat_iovar_int_get K fw ifp id name) id = true ↔
        (fw.brcmf_fil_iovar_int_get true name).1 ≠ -(K.BRCMF_FW_UNSUPPORTED : Int))) ∧
    (fw.brcmf_fil_iovar_data_set true name ≠ -(K.BRCMF_FW_UNSUPPORTED : Int) →
      brcmf_feat_is_enabled (brcmf_feat_iovar_data_set K fw ifp id name) id = true) ∧
    (fw.brcmf_fil_iovar_data_set true name = -(K.BRCMF_FW_UNSUPPORTED : Int) →
      (brcmf_feat_iovar_data_set K fw ifp id name).drvr.feat_flags = ifp.drvr.feat_flags) ∧
    (brcmf_feat_is_enabled ifp id = false →
      (brcmf_feat_is_enabled (brcmf_feat_iovar_data_set K fw ifp id name) id = true ↔
        fw.brcmf_fil_iovar_data_set true name ≠ -(K.BRCMF_FW_UNSUPPORTED : Int))) ∧
    (0 < K.BRCMF_FW_UNSUPPORTED → (fw.brcmf_fil_iovar_int_get true name).1 = 0 →
      brcmf_feat_is_enabled (brcmf_feat_iovar_int_get K fw ifp id name) id = true) ∧
    (0 < K.BRCMF_FW_UNSUPPORTED → fw.brcmf_fil_iovar_data_set true name = 0 →
      brcmf_feat_is_enabled (brcmf_feat_iovar_data_set K fw ifp id name) id = true) := by
  refine ⟨?_, ?_, ?_, ?_, ?_, ?_, ?_, ?_⟩
  · intro h; simp [is_enabled_int_get, hid, h]
  · intro h; simp [int_get_flags, h]
  · intro h; simp [is_enabled_int_get, hid, h]
  · intro h; simp [is_enabled_data_set, hid, h]
  · intro h; simp [data_set_flags, h]
  · intro h; simp [is_enabled_data_set, hid, h]
  · intro hp h
    have : (0 : Int) ≠ -(K.BRCMF_FW_UNSUPPORTED : Int) := by omega
    simp [is_enabled_int_get, hid, h, this]
  · intro hp h
    have : (0 : Int) ≠ -(K.BRCMF_FW_UNSUPPORTED : Int) := by omega
    simp [is_enabled_data_set, hid, h, this]

/-- C4 at a sample input: the "pfn" query is rejected with error -22 (an invalid-argument
rejection, not the sentinel -23) and the PNO bit ends set. -/
theorem C4_query_data_set_criterion_witness :
    brcmf_feat_is_enabled
      (brcmf_feat_iovar_int_get sampleConsts (sampleFil (-5, []) (fun _ => (-22, 0)) 0 0 0)
        (sampleIf 1 true [0, 0, 0, 0, 0] [0, 0, 0, 0, 0] false)
        sampleConsts.BRCMF_FEAT_PNO "pfn")
      sampleConsts.BRCMF_FEAT_PNO = true :=
  (C4_query_data_set_criterion sampleConsts (sampleFil (-5, []) (fun _ => (-22, 0)) 0 0 0)
    (sampleIf 1 true [0, 0, 0, 0, 0] [0, 0, 0, 0, 0] false)
    sampleConsts.BRCMF_FEAT_PNO "pfn" (by decide)).1 (by decide)

/-- C5, as stated, fails for the query probe: the "pfn" round trip returns the error -22,
which is neither success nor the sentinel -23, and the PNO bit, clear before the probe, is
set after it. -/
theorem C5_counterexample :
    ((sampleFil (-5, []) (fun _ => (-22, 0)) 0 0 0).brcmf_fil_iovar_int_get true "pfn").1 = -22 ∧
    (-22 : Int) ≠ -(sampleConsts.BRCMF_FW_UNSUPPORTED : Int) ∧
    brcmf_feat_is_enabled (sampleIf 1 true [0, 0, 0, 0, 0] [0, 0, 0, 0, 0] false)
      sampleConsts.BRCMF_FEAT_PNO = false ∧
    brcmf_feat_is_enabled
      (brcmf_feat_iovar_int_get sampleConsts (sampleFil (-5, []) (fun _ => (-22, 0)) 0 0 0)
        (sampleIf 1 true [0, 0, 0, 0, 0] [0, 0, 0, 0, 0] false)
        sampleConsts.BRCMF_FEAT_PNO "pfn")
      sampleConsts.BRCMF_FEAT_PNO = true := by
  decide

/-- C5 (amended). An enable-get probe whose round trip returns any error leaves the flags
as they were; a query probe or a data-set probe whose round trip returns an error other
than `-BRCMF_FW_UNSUPPORTED` sets the bit of its feature. -/
theorem C5_probe_failure (K : brcmf_consts) (fw : brcmf_fil) (ifp : brcmf_if)
    (id : Nat) (name : String) (subcmd_id : Nat)
    (hid : id / 8 < ifp.drvr.feat_flags.length) :
    (fw.brcmf_fil_xtlv_data_get true name subcmd_id ≠ 0 →
      (brcmf_feat_iovar_enab_get fw ifp id name subcmd_id).drvr.feat_flags =
        ifp.drvr.feat_flags) ∧
    ((fw.brcmf_fil_iovar_int_get true name).1 ≠ 0 →
      (fw.brcmf_fil_iovar_int_get true name).1 ≠ -(K.BRCMF_FW_UNSUPPORTED : Int) →
      brcmf_feat_is_enabled (brcmf_feat_iovar_int_get K fw ifp id name) id = true) ∧
    (fw.brcmf_fil_iovar_data_set true name ≠ 0 →
      fw.brcmf_fil_iovar_data_set true name ≠ -(K.BRCMF_FW_UNSUPPORTED : Int) →
      brcmf_feat_is_enabled (brcmf_feat_iovar_data_set K fw ifp id name) id = true) := by
  refine ⟨?_, ?_, ?_⟩
  · intro h; simp [enab_get_flags, h]
  · intro _ h; simp [is_enabled_int_get, hid, h]
  · intro _ h; simp [is_enabled_data_set, hid, h]

/-- C5 (amended) at a sample input: the "twt" enable query fails with error -22 and the
flags stay all clear. -/
theorem C5_probe_failure_witness :
    (brcmf_feat_iovar_enab_get (sampleFil (-5, []) (fun _ => (-22, 0)) (-22) (-22) 0)
      (sampleIf 1 true [0, 0, 0, 0, 0] [0, 0, 0, 0, 0] false)
      sampleConsts.BRCMF_FEAT_TWT "twt" sampleConsts.BRCMF_TWT_CMD_ENAB).drvr.feat_flags =
    [0, 0, 0, 0, 0] :=
  (C5_probe_failure sampleConsts (sampleFil (-5, []) (fun _ => (-22, 0)) (-22) (-22) 0)
    (sampleIf 1 true [0, 0, 0, 0, 0] [0, 0, 0, 0, 0] false)
    sampleConsts.BRCMF_FEAT_TWT "twt" sampleConsts.BRCMF_TWT_CMD_ENAB (by decide)).1
    (by decide)

/-- C6. Success criterion of the enable-get probe: with `err` the result of the round
trip, `err = 0` sets the bit of `id` and every other `err` (the sentinel included) leaves
the flags as they were, so from a clear bit the bit ends set exactly when `err = 0`.
Consequently, when the TWT bit is clear before `brcmf_feat_attach` and set after it, the
"twt" enable query returned no error. -/
theorem C6_enab_get_criterion (K : brcmf_consts) (fw : brcmf_fil) (ifp : brcmf_if)
    (id : Nat) (name : String) (subcmd_id : Nat) (hK : K.wf) (hifp : ifp.wf K)
    (hid : id / 8 < ifp.drvr.feat_flags.length) :
    (fw.brcmf_fil_xtlv_data_get true name subcmd_id = 0 →
      brcmf_feat_is_enabled (brcmf_feat_iovar_enab_get fw ifp id name subcmd_id) id = true) ∧
    (fw.brcmf_fil_xtlv_data_get true name subcmd_id ≠ 0 →
      (brcmf_feat_iovar_enab_get fw ifp id name subcmd_id).drvr.feat_flags =
        ifp.drvr.feat_flags) ∧
    (brcmf_feat_is_enabled ifp id = false →
      (brcmf_feat_is_enabled (brcmf_feat_iovar_enab_get fw ifp id name subcmd_id) id = true ↔
        fw.brcmf_fil_xtlv_data_get true name subcmd_id = 0)) ∧
    (brcmf_feat_is_enabled ifp K.BRCMF_FEAT_TWT = false →
      brcmf_feat_is_enabled (brcmf_feat_attach K fw ifp) K.BRCMF_FEAT_TWT = true →
      fw.brcmf_fil_xtlv_data_get true "twt" K.BRCMF_TWT_CMD_ENAB = 0) := by
  refine ⟨?_, ?_, ?_, ?_⟩
  · intro h; simp [is_enabled_enab_get, hid, h]
  · intro h; simp [enab_get_flags, h]
  · intro h; simp [is_enabled_enab_get, hid, h]
  · intro hclr
    have hne := wf_symm K hK
    simp only [brcmf_consts.feat_ids, List.pairwise_cons, List.mem_cons, List.mem_singleton,
      forall_eq_or_imp, forall_eq, List.not_mem_nil, false_implies, implies_true, and_true,
      List.Pairwise.nil] at hne
    rw [is_enabled_attach K fw ifp hifp.2.2]
    unfold attach_detect
    simp only [is_enabled_enab_get, is_enabled_int_get, is_enabled_attach_pfn_macaddr,
      is_enabled_attach_mbss, is_enabled_attach_wowl_cap, is_enabled_attach_wowl_probe,
      attach_wowl_probe_fwerr, is_enabled_attach_gscan, is_enabled_firmware_capabilities,
      int_get_frame, attach_pfn_macaddr_frame, attach_mbss_frame,
      attach_wowl_cap_frame, attach_wowl_probe_frame, attach_gscan_frame,
      firmware_capabilities_frame, hclr]
    simp [hne, brcmf_fwcap_map]
    intro _ h _
    exact h

/-- C6 at a sample input: the "twt" enable query succeeds and the TWT bit ends set. -/
theorem C6_enab_get_criterion_witness :
    brcmf_feat_is_enabled
      (brcmf_feat_iovar_enab_get (sampleFil (-5, []) (fun _ => (-22, 0)) 0 0 0)
        (sampleIf 1 true [0, 0, 0, 0, 0] [0, 0, 0, 0, 0] false)
        sampleConsts.BRCMF_FEAT_TWT "twt" sampleConsts.BRCMF_TWT_CMD_ENAB)
      sampleConsts.BRCMF_FEAT_TWT = true :=
  (C6_enab_get_criterion sampleConsts (sampleFil (-5, []) (fun _ => (-22, 0)) 0 0 0)
    (sampleIf 1 true [0, 0, 0, 0, 0] [0, 0, 0, 0, 0] false)
    sampleConsts.BRCMF_FEAT_TWT "twt" sampleConsts.BRCMF_TWT_CMD_ENAB
    (by decide) (by decide) (by decide)).1 (by decide)

/-- C7, as stated, fails: when the error mode is on before the query probe it is off after
the probe. -/
theorem C7_counterexample :
    (sampleIf 1 true [0, 0, 0, 0, 0] [0, 0, 0, 0, 0] true).fwil_fwerr = true ∧
    (brcmf_feat_iovar_int_get sampleConsts (sampleFil (-5, []) (fun _ => (0, 0)) 0 0 0)
      (sampleIf 1 true [0, 0, 0, 0, 0] [0, 0, 0, 0, 0] true)
      sampleConsts.BRCMF_FEAT_PNO "pfn").fwil_fwerr = false := by
  decide

/-- C7 (amended). Each of the three probe executors leaves the firmware-error mode off,
whatever its value before the probe and whatever the probe outcome; so the mode after the
probe equals the mode before it exactly when it was off before. -/
theorem C7_error_mode_after_probe (K : brcmf_consts) (fw : brcmf_fil) (ifp : brcmf_if)
    (id : Nat) (name : String) (subcmd_id : Nat) :
    (brcmf_feat_iovar_int_get K fw ifp id name).fwil_fwerr = false ∧
    (brcmf_feat_iovar_data_set K fw ifp id name).fwil_fwerr = false ∧
    (brcmf_feat_iovar_enab_get fw ifp id name subcmd_id).fwil_fwerr = false ∧
    ((brcmf_feat_iovar_int_get K fw ifp id name).fwil_fwerr = ifp.fwil_fwerr ↔
      ifp.fwil_fwerr = false) ∧
    ((brcmf_feat_iovar_data_set K fw ifp id name).fwil_fwerr = ifp.fwil_fwerr ↔
      ifp.fwil_fwerr = false) ∧
    ((brcmf_feat_iovar_enab_get fw ifp id name subcmd_id).fwil_fwerr = ifp.fwil_fwerr ↔
      ifp.fwil_fwerr = false) := by
  simp only [int_get_frame, data_set_frame, enab_get_frame, true_and]
  refine ⟨eq_comm, eq_comm, eq_comm⟩

/-- C7 (amended) at a sample input: the error mode is on before the "pfn" query probe and
off after it. -/
theorem C7_error_mode_after_probe_witness :
    (brcmf_feat_iovar_int_get sampleConsts (sampleFil (-5, []) (fun _ => (0, 0)) 0 0 0)
      (sampleIf 1 true [0, 0, 0, 0, 0] [0, 0, 0, 0, 0] true)
      sampleConsts.BRCMF_FEAT_PNO "pfn").fwil_fwerr = false :=
  (C7_error_mode_after_probe sampleConsts (sampleFil (-5, []) (fun _ => (0, 0)) 0 0 0)
    (sampleIf 1 true [0, 0, 0, 0, 0] [0, 0, 0, 0, 0] true)
    sampleConsts.BRCMF_FEAT_PNO "pfn" 0).1

/-- C8, as stated, fails: from all-clear flags, with the "wowl" and "wowl_cap" queries
answered without error and a disable mask that holds the WOWL bit only, the final flags
have WOWL_ARP_ND set and WOWL clear. -/
theorem C8_counterexample :
    brcmf_feat_is_enabled
      (brcmf_feat_attach sampleConsts
        (sampleFil (-5, []) (fun _ => (0, 0)) 0 0 0)
        (sampleIf 1 true [0, 0, 0, 0, 0] [8, 0, 0, 0, 0] false))
      sampleConsts.BRCMF_FEAT_WOWL_ARP_ND = true ∧
    brcmf_feat_is_enabled
      (brcmf_feat_attach sampleConsts
        (sampleFil (-5, []) (fun _ => (0, 0)) 0 0 0)
        (sampleIf 1 true [0, 0, 0, 0, 0] [8, 0, 0, 0, 0] false))
      sampleConsts.BRCMF_FEAT_WOWL = false := by
  decide

/-- C8 (amended). From all-clear flags, if one of WOWL_ARP_ND, WOWL_ND, WOWL_GTK is set
after `brcmf_feat_attach`, then the WOWL bit is set in the state just before the mask
step, and it is set in the final flags too unless the disable mask holds the WOWL bit. -/
theorem C8_wowl_dependency (K : brcmf_consts) (fw : brcmf_fil) (ifp : brcmf_if)
    (hK : K.wf) (hifp : ifp.wf K) (h0 : ∀ b ∈ ifp.drvr.feat_flags, b = 0)
    (hdep : brcmf_feat_is_enabled (brcmf_feat_attach K fw ifp) K.BRCMF_FEAT_WOWL_ARP_ND = true ∨
      brcmf_feat_is_enabled (brcmf_feat_attach K fw ifp) K.BRCMF_FEAT_WOWL_ND = true ∨
      brcmf_feat_is_enabled (brcmf_feat_attach K fw ifp) K.BRCMF_FEAT_WOWL_GTK = true) :
    brcmf_feat_is_enabled (attach_detect K fw ifp) K.BRCMF_FEAT_WOWL = true ∧
    (feat_flags_test ifp.drvr.settings.feature_disable K.BRCMF_FEAT_WOWL = false →
      brcmf_feat_is_enabled (brcmf_feat_attach K fw ifp) K.BRCMF_FEAT_WOWL = true) := by
  obtain ⟨h1, h2, h3⟩ := detect_wowl_deps_of_clear K fw ifp hK hifp h0
  have key : brcmf_feat_is_enabled (attach_detect K fw ifp) K.BRCMF_FEAT_WOWL = true := by
    simp only [is_enabled_attach K fw ifp hifp.2.2, h1, h2, h3, Bool.and_eq_true] at hdep
    rcases hdep with h | h | h
    · exact h.1.1
    · exact h.1.1.1
    · exact h.1.1.1
  refine ⟨key, fun hm => ?_⟩
  rw [is_enabled_attach K fw ifp hifp.2.2, key, hm]
  simp

/-- C8 (amended) at a sample input: "wowl" and "wowl_cap" answer without error, the mask
is empty, and both WOWL_ARP_ND and WOWL end set. -/
theorem C8_wowl_dependency_witness :
    brcmf_feat_is_enabled
      (brcmf_feat_attach sampleConsts (sampleFil (-5, []) (fun _ => (0, 0)) 0 0 0)
        (sampleIf 1 true [0, 0, 0, 0, 0] [0, 0, 0, 0, 0] false))
      sampleConsts.BRCMF_FEAT_WOWL = true :=
  (C8_wowl_dependency sampleConsts (sampleFil (-5, []) (fun _ => (0, 0)) 0 0 0)
    (sampleIf 1 true [0, 0, 0, 0, 0] [0, 0, 0, 0, 0] false) (by decide) (by decide)
    (by decide) (Or.inl (by decide))).2 (by decide)

/-- C9. From all-clear flags and an all-zero disable mask, after `brcmf_feat_attach`:
WOWL_ARP_ND is set exactly when the bus reports `wowl_supported`, the "wowl" query did not
answer with the sentinel and the "wowl_cap" query returned no error; WOWL_ND exactly when,
in addition, the "wowl_cap" answer has `BRCMF_WOWL_PFN_FOUND`; WOWL_GTK exactly when, in
addition, it has `BRCMF_WOWL_GTK_FAILURE`. Without `wowl_supported` none of WOWL,
WOWL_ARP_ND, WOWL_ND, WOWL_GTK is set. -/
theorem C9_wowl_sub_capabilities (K : brcmf_consts) (fw : brcmf_fil) (ifp : brcmf_if)
    (hK : K.wf) (hifp : ifp.wf K) (h0 : ∀ b ∈ ifp.drvr.feat_flags, b = 0)
    (hm : ∀ b ∈ ifp.drvr.settings.feature_disable, b = 0) :
    (brcmf_feat_is_enabled (brcmf_feat_attach K fw ifp) K.BRCMF_FEAT_WOWL_ARP_ND = true ↔
      (ifp.drvr.bus_if.wowl_supported = true ∧
        (fw.brcmf_fil_iovar_int_get true "wowl").1 ≠ -(K.BRCMF_FW_UNSUPPORTED : Int) ∧
        (fw.brcmf_fil_iovar_int_get false "wowl_cap").1 = 0)) ∧
    (brcmf_feat_is_enabled (brcmf_feat_attach K fw ifp) K.BRCMF_FEAT_WOWL_ND = true ↔
      (ifp.drvr.bus_if.wowl_supported = true ∧
        (fw.brcmf_fil_iovar_int_get true "wowl").1 ≠ -(K.BRCMF_FW_UNSUPPORTED : Int) ∧
        (fw.brcmf_fil_iovar_int_get false "wowl_cap").1 = 0 ∧
        (fw.brcmf_fil_iovar_int_get false "wowl_cap").2 &&& K.BRCMF_WOWL_PFN_FOUND ≠ 0)) ∧
    (brcmf_feat_is_enabled (brcmf_feat_attach K fw ifp) K.BRCMF_FEAT_WOWL_GTK = true ↔
      (ifp.drvr.bus_if.wowl_supported = true ∧
        (fw.brcmf_fil_iovar_int_get true "wowl").1 ≠ -(K.BRCMF_FW_UNSUPPORTED : Int) ∧
        (fw.brcmf_fil_iovar_int_get false "wowl_cap").1 = 0 ∧
        (fw.brcmf_fil_iovar_int_get false "wowl_cap").2 &&& K.BRCMF_WOWL_GTK_FAILURE ≠ 0)) ∧
    (ifp.drvr.bus_if.wowl_supported = false →
      brcmf_feat_is_enabled (brcmf_feat_attach K fw ifp) K.BRCMF_FEAT_WOWL = false ∧
      brcmf_feat_is_enabled (brcmf_feat_attach K fw ifp) K.BRCMF_FEAT_WOWL_ARP_ND = false ∧
      brcmf_feat_is_enabled (brcmf_feat_attach K fw ifp) K.BRCMF_FEAT_WOWL_ND = false ∧
      brcmf_feat_is_enabled (brcmf_feat_attach K fw ifp) K.BRCMF_FEAT_WOWL_GTK = false) := by
  obtain ⟨h1, h2, h3⟩ := detect_wowl_deps_of_clear K fw ifp hK hifp h0
  have hw := detect_wowl_of_clear K fw ifp hK hifp h0
  have hmask : ∀ j, feat_flags_test ifp.drvr.settings.feature_disable j = false :=
    feat_flags_test_all_clear _ hm
  simp only [is_enabled_attach K fw ifp hifp.2.2, hmask, h1, h2, h3, hw]
  refine ⟨?_, ?_, ?_, ?_⟩
  · simp; tauto
  · simp; tauto
  · simp; tauto
  · intro h; simp [h]

/-- C9 at a sample input: the bus supports WOWL, "wowl" and "wowl_cap" answer without
error, and WOWL_ARP_ND ends set. -/
theorem C9_wowl_sub_capabilities_witness :
    brcmf_feat_is_enabled
      (brcmf_feat_attach sampleConsts (sampleFil (-5, []) (fun _ => (0, 0)) 0 0 0)
        (sampleIf 1 true [0, 0, 0, 0, 0] [0, 0, 0, 0, 0] false))
      sampleConsts.BRCMF_FEAT_WOWL_ARP_ND = true :=
  (C9_wowl_sub_capabilities sampleConsts (sampleFil (-5, []) (fun _ => (0, 0)) 0 0 0)
    (sampleIf 1 true [0, 0, 0, 0, 0] [0, 0, 0, 0, 0] false) (by decide) (by decide)
    (by decide) (by decide)).1.mpr ⟨rfl, by decide, rfl⟩

/-- C10, as stated, fails: the buffer returned by the "cap" read starts with a NUL that is
followed by "mbss", so the text before the first NUL is empty and holds no token; the scan
of `strnstr` is bounded by the buffer size only, finds "mbss" behind the NUL, and the MBSS
bit, clear before the step, is set after it. -/
theorem C10_counterexample :
    (Char.ofNat 0 :: "mbss".toList).takeWhile (fun c => c ≠ Char.ofNat 0) = [] ∧
    ¬ "mbss".toList <:+: (Char.ofNat 0 :: "mbss".toList).takeWhile (fun c => c ≠ Char.ofNat 0) ∧
    brcmf_feat_is_enabled (sampleIf 1 true [0, 0, 0, 0, 0] [0, 0, 0, 0, 0] false)
      sampleConsts.BRCMF_FEAT_MBSS = false ∧
    brcmf_feat_is_enabled
      (brcmf_feat_firmware_capabilities sampleConsts
        (sampleFil (0, Char.ofNat 0 :: "mbss".toList) (fun _ => (0, 0)) 0 0 0)
        (sampleIf 1 true [0, 0, 0, 0, 0] [0, 0, 0, 0, 0] false))
      sampleConsts.BRCMF_FEAT_MBSS = true := by
  refine ⟨by decide, by decide, by decide, ?_⟩
  have hs : strnstr (Char.ofNat 0 :: "mbss".toList) "mbss".toList MAX_CAPS_BUFFER_SIZE = true :=
    (strnstr_iff _ _ _).mpr ⟨[Char.ofNat 0], [], rfl⟩
  rw [is_enabled_firmware_capabilities]
  have hc : (sampleFil (0, Char.ofNat 0 :: "mbss".toList) (fun _ => (0, 0)) 0 0 0).brcmf_fil_iovar_data_get
      (sampleIf 1 true [0, 0, 0, 0, 0] [0, 0, 0, 0, 0] false).fwil_fwerr "cap" =
      (0, Char.ofNat 0 :: "mbss".toList) := rfl
  rw [hc]
  simp only [brcmf_fwcap_map, List.any_cons, hs]
  decide

/-- C10 (amended). After a successful "cap" read, `brcmf_feat_firmware_capabilities` keeps
the size of the flag array, and a feature whose bit lies in the array is enabled afterwards
exactly when it was enabled before or `brcmf_fwcap_map` has an entry for it whose token is
a contiguous part of the first 768 bytes of the buffer (a NUL in the buffer does not end
the scan); so no bit that was set before the step is cleared by it. -/
theorem C10_capability_matcher (K : brcmf_consts) (fw : brcmf_fil) (ifp : brcmf_if)
    (hcap : (fw.brcmf_fil_iovar_data_get ifp.fwil_fwerr "cap").1 = 0) :
    (brcmf_feat_firmware_capabilities K fw ifp).drvr.feat_flags.length =
      ifp.drvr.feat_flags.length ∧
    (∀ j, j / 8 < ifp.drvr.feat_flags.length →
      (brcmf_feat_is_enabled (brcmf_feat_firmware_capabilities K fw ifp) j = true ↔
        (brcmf_feat_is_enabled ifp j = true ∨
          ∃ e ∈ brcmf_fwcap_map K, e.1 = j ∧
            e.2.toList <:+:
              (fw.brcmf_fil_iovar_data_get ifp.fwil_fwerr "cap").2.take
                MAX_CAPS_BUFFER_SIZE))) ∧
    (∀ j, brcmf_feat_is_enabled ifp j = true →
      brcmf_feat_is_enabled (brcmf_feat_firmware_capabilities K fw ifp) j = true) := by
  refine ⟨(firmware_capabilities_frame K fw ifp).2.2.2.1, ?_, ?_⟩
  · intro j hj
    rw [is_enabled_firmware_capabilities]
    simp only [hcap, decide_True, Bool.true_and, Bool.or_eq_true, List.any_eq_true,
      Bool.and_eq_true, decide_eq_true_eq, strnstr_iff]
    constructor
    · rintro (h | ⟨e, he, ⟨h1, _⟩, h3⟩)
      · exact Or.inl h
      · exact Or.inr ⟨e, he, h1.symm, h3⟩
    · rintro (h | ⟨e, he, h1, h3⟩)
      · exact Or.inl h
      · exact Or.inr ⟨e, he, ⟨h1.symm, h1 ▸ hj⟩, h3⟩
  · intro j h
    rw [is_enabled_firmware_capabilities, h, Bool.true_or]

/-- C10 (amended) at a sample input: the buffer "p2p " sets the P2P bit. -/
theorem C10_capability_matcher_witness :
    brcmf_feat_is_enabled
      (brcmf_feat_firmware_capabilities sampleConsts
        (sampleFil (0, "p2p ".toList) (fun _ => (0, 0)) 0 0 0)
        (sampleIf 1 true [0, 0, 0, 0, 0] [0, 0, 0, 0, 0] false))
      sampleConsts.BRCMF_FEAT_P2P = true :=
  ((C10_capability_matcher sampleConsts (sampleFil (0, "p2p ".toList) (fun _ => (0, 0)) 0 0 0)
    (sampleIf 1 true [0, 0, 0, 0, 0] [0, 0, 0, 0, 0] false) rfl).2.1
      sampleConsts.BRCMF_FEAT_P2P (by decide)).mpr
    (Or.inr ⟨(sampleConsts.BRCMF_FEAT_P2P, "p2p"), by decide, rfl, ⟨[], [' '], rfl⟩⟩)

/-- C12. Worked example: from all-clear flags, with a successful "cap" read whose buffer
holds "mbss mchan p2p monitor " followed by NUL bytes, a chip outside the MBSS-exclusion
set, every integer query, data-set request, "pfn_macaddr" read and sub-command query
answered with the sentinel `-BRCMF_FW_UNSUPPORTED` (an error code, so not zero), any
`wowl_supported` and an all-zero disable mask, a feature is enabled after
`brcmf_feat_attach` exactly when it is MBSS, MCHAN, P2P or MONITOR. -/
theorem C12_worked_example (K : brcmf_consts) (fw : brcmf_fil) (ifp : brcmf_if)
    (hK : K.wf) (hifp : ifp.wf K) (h0 : ∀ b ∈ ifp.drvr.feat_flags, b = 0)
    (hm : ∀ b ∈ ifp.drvr.settings.feature_disable, b = 0)
    (hU : 0 < K.BRCMF_FW_UNSUPPORTED)
    (hchip : ifp.drvr.bus_if.chip ≠ K.BRCM_CC_4330_CHIP_ID ∧
      ifp.drvr.bus_if.chip ≠ K.BRCM_CC_43362_CHIP_ID)
    (n : Nat)
    (hcap : fw.brcmf_fil_iovar_data_get ifp.fwil_fwerr "cap" =
      (0, "mbss mchan p2p monitor ".toList ++ List.replicate n (Char.ofNat 0)))
    (hq : ∀ b name, (fw.brcmf_fil_iovar_int_get b name).1 = -(K.BRCMF_FW_UNSUPPORTED : Int))
    (hds : ∀ b name, fw.brcmf_fil_iovar_data_set b name = -(K.BRCMF_FW_UNSUPPORTED : Int))
    (hpm : (fw.brcmf_fil_iovar_data_get false "pfn_macaddr").1 =
      -(K.BRCMF_FW_UNSUPPORTED : Int))
    (hx : ∀ b name sub, fw.brcmf_fil_xtlv_data_get b name sub =
      -(K.BRCMF_FW_UNSUPPORTED : Int))
    (j : Nat) :
    brcmf_feat_is_enabled (brcmf_feat_attach K fw ifp) j = true ↔
      (j = K.BRCMF_FEAT_MBSS ∨ j = K.BRCMF_FEAT_MCHAN ∨ j = K.BRCMF_FEAT_P2P ∨
        j = K.BRCMF_FEAT_MONITOR) := by
  have hb := wf_bound K hK
  simp only [brcmf_consts.feat_ids, List.mem_cons, List.mem_singleton,
    forall_eq_or_imp, forall_eq, List.not_mem_nil, false_implies, implies_true, and_true]
    at hb
  have hclr := is_enabled_all_clear ifp h0
  have hmask : ∀ i, feat_flags_test ifp.drvr.settings.feature_disable i = false :=
    feat_flags_test_all_clear _ hm
  have hlen := hifp.1
  have hz : ¬ (-(K.BRCMF_FW_UNSUPPORTED : Int) = 0) := by omega
  have f0 : strnstr ("mbss mchan p2p monitor ".toList ++ List.replicate n (Char.ofNat 0))
      "mbss".toList MAX_CAPS_BUFFER_SIZE = true := by
    rw [strnstr_padded _ _ n (by decide) (by decide)]; decide
  have f1 : strnstr ("mbss mchan p2p monitor ".toList ++ List.replicate n (Char.ofNat 0))
      "mchan".toList MAX_CAPS_BUFFER_SIZE = true := by
    rw [strnstr_padded _ _ n (by decide) (by decide)]; decide
  have f2 : strnstr ("mbss mchan p2p monitor ".toList ++ List.replicate n (Char.ofNat 0))
      "p2p".toList MAX_CAPS_BUFFER_SIZE = true := by
    rw [strnstr_padded _ _ n (by decide) (by decide)]; decide
  have f3 : strnstr ("mbss mchan p2p monitor ".toList ++ List.replicate n (Char.ofNat 0))
      "monitor".toList MAX_CAPS_BUFFER_SIZE = true := by
    rw [strnstr_padded _ _ n (by decide) (by decide)]; decide
  have f4 : strnstr ("mbss mchan p2p monitor ".toList ++ List.replicate n (Char.ofNat 0))
      "rtap".toList MAX_CAPS_BUFFER_SIZE = false := by
    rw [strnstr_padded _ _ n (by decide) (by decide)]; decide
  have f5 : strnstr ("mbss mchan p2p monitor ".toList ++ List.replicate n (Char.ofNat 0))
      "802.11h".toList MAX_CAPS_BUFFER_SIZE = false := by
    rw [strnstr_padded _ _ n (by decide) (by decide)]; decide
  have f6 : strnstr ("mbss mchan p2p monitor ".toList ++ List.replicate n (Char.ofNat 0))
      "sae ".toList MAX_CAPS_BUFFER_SIZE = false := by
    rw [strnstr_padded _ _ n (by decide) (by decide)]; decide
  have f7 : strnstr ("mbss mchan p2p monitor ".toList ++ List.replicate n (Char.ofNat 0))
      "idauth".toList MAX_CAPS_BUFFER_SIZE = false := by
    rw [strnstr_padded _ _ n (by decide) (by decide)]; decide
  have f8 : strnstr ("mbss mchan p2p monitor ".toList ++ List.replicate n (Char.ofNat 0))
      "sae_ext ".toList MAX_CAPS_BUFFER_SIZE = false := by
    rw [strnstr_padded _ _ n (by decide) (by decide)]; decide
  have f9 : strnstr ("mbss mchan p2p monitor ".toList ++ List.replicate n (Char.ofNat 0))
      "fbt ".toList MAX_CAPS_BUFFER_SIZE = false := by
    rw [strnstr_padded _ _ n (by decide) (by decide)]; decide
  have f10 : strnstr ("mbss mchan p2p monitor ".toList ++ List.replicate n (Char.ofNat 0))
      "okc".toList MAX_CAPS_BUFFER_SIZE = false := by
    rw [strnstr_padded _ _ n (by decide) (by decide)]; decide
  have f11 : strnstr ("mbss mchan p2p monitor ".toList ++ List.replicate n (Char.ofNat 0))
      "gcmp".toList MAX_CAPS_BUFFER_SIZE = false := by
    rw [strnstr_padded _ _ n (by decide) (by decide)]; decide
  have f12 : strnstr ("mbss mchan p2p monitor ".toList ++ List.replicate n (Char.ofNat 0))
      "offloads".toList MAX_CAPS_BUFFER_SIZE = false := by
    rw [strnstr_padded _ _ n (by decide) (by decide)]; decide
  have f13 : strnstr ("mbss mchan p2p monitor ".toList ++ List.replicate n (Char.ofNat 0))
      "ulp".toList MAX_CAPS_BUFFER_SIZE = false := by
    rw [strnstr_padded _ _ n (by decide) (by decide)]; decide
  have f14 : strnstr ("mbss mchan p2p monitor ".toList ++ List.replicate n (Char.ofNat 0))
      "proptxstatus".toList MAX_CAPS_BUFFER_SIZE = false := by
    rw [strnstr_padded _ _ n (by decide) (by decide)]; decide
  have f15 : strnstr ("mbss mchan p2p monitor ".toList ++ List.replicate n (Char.ofNat 0))
      "owe".toList MAX_CAPS_BUFFER_SIZE = false := by
    rw [strnstr_padded _ _ n (by decide) (by decide)]; decide
  rw [is_enabled_attach K fw ifp hifp.2.2]
  unfold attach_detect
  simp only [is_enabled_enab_get, is_enabled_int_get, is_enabled_attach_pfn_macaddr,
    is_enabled_attach_mbss, is_enabled_attach_wowl_cap, is_enabled_attach_wowl_probe,
    attach_wowl_probe_fwerr, is_enabled_attach_gscan, is_enabled_firmware_capabilities,
    int_get_frame, attach_pfn_macaddr_frame, attach_mbss_frame,
    attach_wowl_cap_frame, attach_wowl_probe_frame, attach_gscan_frame,
    firmware_capabilities_frame, hmask, hclr, hlen, hcap, hq, hds, hpm, hx, hz,
    hchip.1, hchip.2, brcmf_fwcap_map, List.any_cons, List.any_nil, f0, f1, f2, f3, f4, f5, f6, f7, f8, f9, f10, f11, f12, f13, f14, f15]
  simp [hb]

/-- C12 at a sample input: chip 1, every answer -23, and the P2P bit ends set. -/
theorem C12_worked_example_witness :
    brcmf_feat_is_enabled
      (brcmf_feat_attach sampleConsts
        (sampleFil (0, "mbss mchan p2p monitor ".toList) (fun _ => (-23, 0)) (-23) (-23) (-23))
        (sampleIf 1 true [0, 0, 0, 0, 0] [0, 0, 0, 0, 0] false))
      sampleConsts.BRCMF_FEAT_P2P = true :=
  (C12_worked_example sampleConsts
    (sampleFil (0, "mbss mchan p2p monitor ".toList) (fun _ => (-23, 0)) (-23) (-23) (-23))
    (sampleIf 1 true [0, 0, 0, 0, 0] [0, 0, 0, 0, 0] false) (by decide) (by decide)
    (by decide) (by decide) (by decide) (by decide) 0 rfl (fun _ _ => rfl) (fun _ _ => rfl)
    rfl (fun _ _ _ => rfl) sampleConsts.BRCMF_FEAT_P2P).mpr (Or.inr (Or.inr (Or.inl rfl)))

/-- C13. GSCAN probe skip: for each of the four chips of the skip list the
"pfn_gscan_cfg" stage returns the state it was given (the probe is not issued), so from
all-clear flags the GSCAN bit is clear after `brcmf_feat_attach` whatever the firmware
would answer; for every other chip, when the disable mask does not hold GSCAN, the GSCAN
bit is set after `brcmf_feat_attach` exactly when the probe did not answer with the
sentinel. -/
theorem C13_gscan_probe_skip (K : brcmf_consts) (fw : brcmf_fil) (ifp : brcmf_if)
    (hK : K.wf) (hifp : ifp.wf K) (h0 : ∀ b ∈ ifp.drvr.feat_flags, b = 0) :
    ((ifp.drvr.bus_if.chip = K.BRCM_CC_43430_CHIP_ID ∨
        ifp.drvr.bus_if.chip = K.BRCM_CC_4345_CHIP_ID ∨
        ifp.drvr.bus_if.chip = K.BRCM_CC_43454_CHIP_ID ∨
        ifp.drvr.bus_if.chip = K.CY_CC_43439_CHIP_ID) →
      attach_gscan K fw (brcmf_feat_firmware_capabilities K fw ifp) =
        brcmf_feat_firmware_capabilities K fw ifp ∧
      brcmf_feat_is_enabled (brcmf_feat_attach K fw ifp) K.BRCMF_FEAT_GSCAN = false) ∧
    ((ifp.drvr.bus_if.chip ≠ K.BRCM_CC_43430_CHIP_ID ∧
        ifp.drvr.bus_if.chip ≠ K.BRCM_CC_4345_CHIP_ID ∧
        ifp.drvr.bus_if.chip ≠ K.BRCM_CC_43454_CHIP_ID ∧
        ifp.drvr.bus_if.chip ≠ K.CY_CC_43439_CHIP_ID) →
      feat_flags_test ifp.drvr.settings.feature_disable K.BRCMF_FEAT_GSCAN = false →
      (brcmf_feat_is_enabled (brcmf_feat_attach K fw ifp) K.BRCMF_FEAT_GSCAN = true ↔
        fw.brcmf_fil_iovar_data_set true "pfn_gscan_cfg" ≠
          -(K.BRCMF_FW_UNSUPPORTED : Int))) := by
  have hdet := detect_gscan_of_clear K fw ifp hK hifp h0
  constructor
  · intro hc
    have hn : ¬ (ifp.drvr.bus_if.chip ≠ K.BRCM_CC_43430_CHIP_ID ∧
        ifp.drvr.bus_if.chip ≠ K.BRCM_CC_4345_CHIP_ID ∧
        ifp.drvr.bus_if.chip ≠ K.BRCM_CC_43454_CHIP_ID ∧
        ifp.drvr.bus_if.chip ≠ K.CY_CC_43439_CHIP_ID) := by
      rintro ⟨h1, h2, h3, h4⟩
      rcases hc with h | h | h | h
      · exact h1 h
      · exact h2 h
      · exact h3 h
      · exact h4 h
    constructor
    · unfold attach_gscan
      rw [(firmware_capabilities_frame K fw ifp).1, if_neg hn]
    · rw [is_enabled_attach K fw ifp hifp.2.2, hdet]
      simp only [hn, decide_False, Bool.false_and]
  · intro hc hm
    rw [is_enabled_attach K fw ifp hifp.2.2, hdet, hm]
    simp [hc]

/-- C13 at a sample input: chip 43430 is in the skip list, the firmware would answer the
probe with success, and the GSCAN bit ends clear. -/
theorem C13_gscan_probe_skip_witness :
    brcmf_feat_is_enabled
      (brcmf_feat_attach sampleConsts (sampleFil (-5, []) (fun _ => (0, 0)) 0 0 0)
        (sampleIf 43430 true [0, 0, 0, 0, 0] [0, 0, 0, 0, 0] false))
      sampleConsts.BRCMF_FEAT_GSCAN = false :=
  ((C13_gscan_probe_skip sampleConsts (sampleFil (-5, []) (fun _ => (0, 0)) 0 0 0)
    (sampleIf 43430 true [0, 0, 0, 0, 0] [0, 0, 0, 0, 0] false) (by decide) (by decide)
    (by decide)).1 (Or.inl rfl)).2

/-- C14. Quirk lookup: from an all-clear `chip_quirks`, after `brcmf_feat_attach` the quirk
bitmap holds exactly the AUTO_AUTH bit for chip `BRCM_CC_43236_CHIP_ID`, exactly the
NEED_MPC bit for chip `BRCM_CC_4329_CHIP_ID` and no bit for any other chip; and two runs
with the same chip identity and the same initial bitmap end with the same bitmap, whatever
the blobs, the probe answers, the flags and the disable masks. The two quirk ordinals are
bit positions of the `u32` bitmap and the two `case` labels are different constants. -/
theorem C14_quirk_lookup (K : brcmf_consts) (fw : brcmf_fil) (ifp : brcmf_if)
    (hq0 : ifp.drvr.chip_quirks = 0)
    (ha : K.BRCMF_FEAT_QUIRK_AUTO_AUTH < 32) (hb : K.BRCMF_FEAT_QUIRK_NEED_MPC < 32)
    (hcase : K.BRCM_CC_43236_CHIP_ID ≠ K.BRCM_CC_4329_CHIP_ID) :
    (ifp.drvr.bus_if.chip = K.BRCM_CC_43236_CHIP_ID →
      (brcmf_feat_attach K fw ifp).drvr.chip_quirks = 2 ^ K.BRCMF_FEAT_QUIRK_AUTO_AUTH ∧
      ∀ q, brcmf_feat_is_quirk_enabled (brcmf_feat_attach K fw ifp) q =
        decide (q = K.BRCMF_FEAT_QUIRK_AUTO_AUTH)) ∧
    (ifp.drvr.bus_if.chip = K.BRCM_CC_4329_CHIP_ID →
      (brcmf_feat_attach K fw ifp).drvr.chip_quirks = 2 ^ K.BRCMF_FEAT_QUIRK_NEED_MPC ∧
      ∀ q, brcmf_feat_is_quirk_enabled (brcmf_feat_attach K fw ifp) q =
        decide (q = K.BRCMF_FEAT_QUIRK_NEED_MPC)) ∧
    (ifp.drvr.bus_if.chip ≠ K.BRCM_CC_43236_CHIP_ID →
      ifp.drvr.bus_if.chip ≠ K.BRCM_CC_4329_CHIP_ID →
      (brcmf_feat_attach K fw ifp).drvr.chip_quirks = 0 ∧
      ∀ q, brcmf_feat_is_quirk_enabled (brcmf_feat_attach K fw ifp) q = false) ∧
    (∀ (fw2 : brcmf_fil) (ifp2 : brcmf_if),
      ifp2.drvr.bus_if.chip = ifp.drvr.bus_if.chip →
      ifp2.drvr.chip_quirks = ifp.drvr.chip_quirks →
      (brcmf_feat_attach K fw2 ifp2).drvr.chip_quirks =
        (brcmf_feat_attach K fw ifp).drvr.chip_quirks) := by
  have hval : ∀ a, a < 32 → (0 ||| BIT a) % 2 ^ 32 = 2 ^ a := by
    intro a h
    rw [Nat.zero_or, BIT_of_lt (by omega : a < 64),
      Nat.mod_eq_of_lt (Nat.pow_lt_pow_right (by decide) h)]
  refine ⟨?_, ?_, ?_, ?_⟩
  · intro hc
    have hq : (brcmf_feat_attach K fw ifp).drvr.chip_quirks =
        (0 ||| BIT K.BRCMF_FEAT_QUIRK_AUTO_AUTH) % 2 ^ 32 := by
      rw [attach_chip_quirks, if_pos hc, hq0]
    refine ⟨hq.trans (hval _ ha), fun q => ?_⟩
    unfold brcmf_feat_is_quirk_enabled
    rw [hq]
    exact quirk_test_single _ q ha
  · intro hc
    have hc1 : ¬ ifp.drvr.bus_if.chip = K.BRCM_CC_43236_CHIP_ID := fun e => hcase (e ▸ hc)
    have hq : (brcmf_feat_attach K fw ifp).drvr.chip_quirks =
        (0 ||| BIT K.BRCMF_FEAT_QUIRK_NEED_MPC) % 2 ^ 32 := by
      rw [attach_chip_quirks, if_neg hc1, if_pos hc, hq0]
    refine ⟨hq.trans (hval _ hb), fun q => ?_⟩
    unfold brcmf_feat_is_quirk_enabled
    rw [hq]
    exact quirk_test_single _ q hb
  · intro h1 h2
    have hq : (brcmf_feat_attach K fw ifp).drvr.chip_quirks = 0 := by
      rw [attach_chip_quirks, if_neg h1, if_neg h2, hq0]
    refine ⟨hq, fun q => ?_⟩
    unfold brcmf_feat_is_quirk_enabled
    rw [hq]
    simp
  · intro fw2 ifp2 h1 h2
    rw [attach_chip_quirks, attach_chip_quirks, h1, h2]

/-- C14 at a sample input: chip 43236 ends with the quirk bitmap 1, the AUTO_AUTH bit. -/
theorem C14_quirk_lookup_witness :
    (brcmf_feat_attach sampleConsts (sampleFil (-5, []) (fun _ => (0, 0)) 0 0 0)
      (sampleIf 43236 true [0, 0, 0, 0, 0] [0, 0, 0, 0, 0] false)).drvr.chip_quirks =
    2 ^ sampleConsts.BRCMF_FEAT_QUIRK_AUTO_AUTH :=
  ((C14_quirk_lookup sampleConsts (sampleFil (-5, []) (fun _ => (0, 0)) 0 0 0)
    (sampleIf 43236 true [0, 0, 0, 0, 0] [0, 0, 0, 0, 0] false) rfl (by decide) (by decide)
    (by decide)).1 rfl).1

/-- C15, as stated, fails: for the blob "a" followed by two spaces the dump prints "a" and
two line breaks, so the emitted text ends with two consecutive line breaks. -/
theorem C15_counterexample :
    brcmf_feat_fwcap_debugfs_read (sampleFil (0, "a  ".toList) (fun _ => (0, 0)) 0 0 0)
      (sampleIf 1 true [0, 0, 0, 0, 0] [0, 0, 0, 0, 0] false) =
      some (0, ['a', Char.ofNat 10, Char.ofNat 10]) ∧
    [Char.ofNat 10, Char.ofNat 10] <:+ ['a', Char.ofNat 10, Char.ofNat 10] := by
  refine ⟨by decide, ⟨['a'], rfl⟩⟩

/-- C15 (amended). After a successful "cap" read whose answer leaves a NUL in the array
`caps` (the answer is shorter than the array or has a NUL among the bytes that fit), the
dump returns 0 and prints the blob (the text of the array before its first NUL) with every
space rewritten to a line break, followed by one more line break exactly when the blob is
not empty and does not end in a space or a line break; so the printed text ends with two
consecutive line breaks exactly when the rewritten blob itself does (no trailing line break
is removed, and none is added after one). When the array holds no NUL the scan runs past
the end of `caps` and no output is defined. -/
theorem C15_fwcap_dump (fw : brcmf_fil) (ifp : brcmf_if)
    (hcap : (fw.brcmf_fil_iovar_data_get ifp.fwil_fwerr "cap").1 = 0) :
    (Char.ofNat 0 ∈ fwcap_caps (fw.brcmf_fil_iovar_data_get ifp.fwil_fwerr "cap").2 ↔
      ((fw.brcmf_fil_iovar_data_get ifp.fwil_fwerr "cap").2.length ≤ MAX_CAPS_BUFFER_SIZE ∨
        Char.ofNat 0 ∈
          (fw.brcmf_fil_iovar_data_get ifp.fwil_fwerr "cap").2.take
            (MAX_CAPS_BUFFER_SIZE + 1))) ∧
    (Char.ofNat 0 ∈ fwcap_caps (fw.brcmf_fil_iovar_data_get ifp.fwil_fwerr "cap").2 →
      brcmf_feat_fwcap_debugfs_read fw ifp =
        some (0, spaces_to_line_breaks
              (caps_text (fwcap_caps (fw.brcmf_fil_iovar_data_get ifp.fwil_fwerr "cap").2)) ++
            (if caps_text (fwcap_caps (fw.brcmf_fil_iovar_data_get ifp.fwil_fwerr "cap").2)
                  ≠ [] ∧
                (caps_text (fwcap_caps
                  (fw.brcmf_fil_iovar_data_get ifp.fwil_fwerr "cap").2)).getLast? ≠ some ' ' ∧
                (caps_text (fwcap_caps
                  (fw.brcmf_fil_iovar_data_get ifp.fwil_fwerr "cap").2)).getLast? ≠
                    some (Char.ofNat 10)
              then [Char.ofNat 10] else [])) ∧
      ([Char.ofNat 10, Char.ofNat 10] <:+
          spaces_to_line_breaks
              (caps_text (fwcap_caps (fw.brcmf_fil_iovar_data_get ifp.fwil_fwerr "cap").2)) ++
            (if caps_text (fwcap_caps (fw.brcmf_fil_iovar_data_get ifp.fwil_fwerr "cap").2)
                  ≠ [] ∧
                (caps_text (fwcap_caps
                  (fw.brcmf_fil_iovar_data_get ifp.fwil_fwerr "cap").2)).getLast? ≠ some ' ' ∧
                (caps_text (fwcap_caps
                  (fw.brcmf_fil_iovar_data_get ifp.fwil_fwerr "cap").2)).getLast? ≠
                    some (Char.ofNat 10)
              then [Char.ofNat 10] else []) ↔
        [Char.ofNat 10, Char.ofNat 10] <:+
          spaces_to_line_breaks
            (caps_text (fwcap_caps (fw.brcmf_fil_iovar_data_get ifp.fwil_fwerr "cap").2)))) ∧
    (Char.ofNat 0 ∉ fwcap_caps (fw.brcmf_fil_iovar_data_get ifp.fwil_fwerr "cap").2 →
      brcmf_feat_fwcap_debugfs_read fw ifp = none) := by
  refine ⟨mem_fwcap_caps _, ?_, ?_⟩
  · intro hnul
    generalize htext :
      caps_text (fwcap_caps (fw.brcmf_fil_iovar_data_get ifp.fwil_fwerr "cap").2) = text
    have hlast : (spaces_to_line_breaks text).getLast? ≠ some (Char.ofNat 10) ↔
        (text.getLast? ≠ some ' ' ∧ text.getLast? ≠ some (Char.ofNat 10)) := by
      unfold spaces_to_line_breaks
      rw [List.getLast?_map]
      cases hl : text.getLast? with
      | none => simp
      | some c =>
        by_cases hc : c = ' '
        · simp [hc]
        · simp [hc]
    have hpos : 0 < (spaces_to_line_breaks text).length ↔ text ≠ [] := by
      unfold spaces_to_line_breaks
      rw [List.length_map, List.length_pos]
    constructor
    · unfold brcmf_feat_fwcap_debugfs_read
      simp only [hcap, ne_eq, not_true_eq_false, if_false, fwcap_scan_eq, hnul, if_true, htext,
        hpos, hlast]
      split <;> simp
    · by_cases hc : text ≠ [] ∧ text.getLast? ≠ some ' ' ∧ text.getLast? ≠ some (Char.ofNat 10)
      · rw [if_pos hc]
        have hl := hlast.mpr hc.2
        constructor
        · intro h
          exfalso
          rcases List.suffix_concat_iff.mp h with h | ⟨t, ht, hs⟩
          · simp at h
          · have ht' : t = [Char.ofNat 10] :=
              List.append_cancel_right
                (ht.symm.trans rfl :
                  t ++ [Char.ofNat 10] = [Char.ofNat 10] ++ [Char.ofNat 10])
            rw [ht'] at hs
            exact hl (getLast?_of_suffix_singleton _ _ hs)
        · intro h
          exfalso
          apply hl
          apply getLast?_of_suffix_singleton
          exact (List.suffix_cons _ _).trans h
      · rw [if_neg hc, List.append_nil]
  · intro hnul
    unfold brcmf_feat_fwcap_debugfs_read
    simp only [hcap, ne_eq, not_true_eq_false, if_false, fwcap_scan_eq, hnul]

/-- C15 (amended) at a sample input: the blob "mbss p2p" is printed as two lines, the
closing line break added by the dump. -/
theorem C15_fwcap_dump_witness :
    brcmf_feat_fwcap_debugfs_read (sampleFil (0, "mbss p2p".toList) (fun _ => (0, 0)) 0 0 0)
      (sampleIf 1 true [0, 0, 0, 0, 0] [0, 0, 0, 0, 0] false) =
      some (0, "mbss".toList ++ [Char.ofNat 10] ++ "p2p".toList ++ [Char.ofNat 10]) :=
  ((C15_fwcap_dump (sampleFil (0, "mbss p2p".toList) (fun _ => (0, 0)) 0 0 0)
    (sampleIf 1 true [0, 0, 0, 0, 0] [0, 0, 0, 0, 0] false) rfl).2.1
      ((mem_fwcap_caps _).mpr (Or.inl (by decide)))).1

/-- C16 at a feature count of 35. The feature bit set occupies
`DIV_ROUND_UP(35, 8) = 5` bytes and feature 34 (OWE) is enabled in the fifth byte, yet the
"Features:" line holds eight hex digits, the four bytes `35 / 8` rounded down, all zero;
the fifth byte 0x04 is not printed, although the name list that follows does show OWE. The
claim requires two hex digits for each of the five bytes. -/
theorem C16_hex_line_drops_partial_byte :
    DIV_ROUND_UP sampleConsts.BRCMF_FEAT_LAST 8 = 5 ∧
    brcmf_feat_is_enabled (sampleIf 1 true [0, 0, 0, 0, 4] [0, 0, 0, 0, 0] false)
      sampleConsts.BRCMF_FEAT_OWE = true ∧
    debugfs_hex sampleConsts
      (debugfs_feats sampleConsts
        (sampleIf 1 true [0, 0, 0, 0, 4] [0, 0, 0, 0, 0] false).drvr) = "00000000".toList ∧
    brcmf_feat_debugfs_read sampleConsts sampleNames
      (sampleIf 1 true [0, 0, 0, 0, 4] [0, 0, 0, 0, 0] false).drvr =
      (0, "Features: 00000000".toList ++ [Char.ofNat 10] ++
          (Char.ofNat 9 :: "OWE".toList) ++ [Char.ofNat 10, Char.ofNat 10] ++
          "Quirks:   00000000".toList ++ [Char.ofNat 10]) := by
  decide

/-- C17. Substring matching of the P2P token: after a successful "cap" read, from
all-clear flags, `brcmf_feat_firmware_capabilities` sets the P2P bit exactly when "p2p" is
a contiguous part of the blob (the 768 bytes of the buffer), wherever it stands; and when
no token of `brcmf_fwcap_map` is a contiguous part of the blob the flags are left as they
were. -/
theorem C17_p2p_substring (K : brcmf_consts) (fw : brcmf_fil) (ifp : brcmf_if)
    (hK : K.wf) (hifp : ifp.wf K) (h0 : ∀ b ∈ ifp.drvr.feat_flags, b = 0)
    (hcap : (fw.brcmf_fil_iovar_data_get ifp.fwil_fwerr "cap").1 = 0) :
    (brcmf_feat_is_enabled (brcmf_feat_firmware_capabilities K fw ifp) K.BRCMF_FEAT_P2P = true ↔
      "p2p".toList <:+:
        (fw.brcmf_fil_iovar_data_get ifp.fwil_fwerr "cap").2.take MAX_CAPS_BUFFER_SIZE) ∧
    ((∀ e ∈ brcmf_fwcap_map K, ¬ e.2.toList <:+:
        (fw.brcmf_fil_iovar_data_get ifp.fwil_fwerr "cap").2.take MAX_CAPS_BUFFER_SIZE) →
      (brcmf_feat_firmware_capabilities K fw ifp).drvr.feat_flags = ifp.drvr.feat_flags) := by
  have hne := wf_symm K hK
  have hb := wf_bound K hK
  simp only [brcmf_consts.feat_ids, List.pairwise_cons, List.mem_cons, List.mem_singleton,
    forall_eq_or_imp, forall_eq, List.not_mem_nil, false_implies, implies_true, and_true,
    List.Pairwise.nil] at hne hb
  have hclr := is_enabled_all_clear ifp h0
  have hlen := hifp.1
  constructor
  · rw [← strnstr_iff, is_enabled_firmware_capabilities]
    simp only [hclr, hcap, hlen, brcmf_fwcap_map, List.any_cons, List.any_nil]
    simp [hne, hb]
  · intro h
    unfold brcmf_feat_firmware_capabilities
    rw [if_neg (not_not.mpr hcap)]
    simp only [with_flags_frame]
    apply fwcap_loop_no_match
    intro e he
    have := h e he
    rw [← strnstr_iff] at this
    simpa using this

/-- C17 at a sample input: the blob "xp2px" holds "p2p" inside a longer word and sets the
P2P bit. -/
theorem C17_p2p_substring_witness :
    brcmf_feat_is_enabled
      (brcmf_feat_firmware_capabilities sampleConsts
        (sampleFil (0, "xp2px".toList) (fun _ => (0, 0)) 0 0 0)
        (sampleIf 1 true [0, 0, 0, 0, 0] [0, 0, 0, 0, 0] false))
      sampleConsts.BRCMF_FEAT_P2P = true :=
  (C17_p2p_substring sampleConsts (sampleFil (0, "xp2px".toList) (fun _ => (0, 0)) 0 0 0)
    (sampleIf 1 true [0, 0, 0, 0, 0] [0, 0, 0, 0, 0] false) (by decide) (by decide)
    (by decide) rfl).1.mpr ⟨['x'], ['x'], rfl⟩

/-- C18. Trailing-space tokens: after a successful "cap" read, from all-clear flags,
`brcmf_feat_firmware_capabilities` sets the SAE bit exactly when the four characters
"sae " are a contiguous part of the blob, and the SAE_EXT bit exactly when "sae_ext " is;
so the blob "sae_ext " sets SAE_EXT and not SAE; and a blob that holds "rtap" sets both
MONITOR_FLAG and MONITOR_FMT_RADIOTAP. -/
theorem C18_trailing_space_tokens (K : brcmf_consts) (fw : brcmf_fil) (ifp : brcmf_if)
    (hK : K.wf) (hifp : ifp.wf K) (h0 : ∀ b ∈ ifp.drvr.feat_flags, b = 0)
    (hcap : (fw.brcmf_fil_iovar_data_get ifp.fwil_fwerr "cap").1 = 0) :
    (brcmf_feat_is_enabled (brcmf_feat_firmware_capabilities K fw ifp) K.BRCMF_FEAT_SAE = true ↔
      "sae ".toList <:+:
        (fw.brcmf_fil_iovar_data_get ifp.fwil_fwerr "cap").2.take MAX_CAPS_BUFFER_SIZE) ∧
    (brcmf_feat_is_enabled (brcmf_feat_firmware_capabilities K fw ifp) K.BRCMF_FEAT_SAE_EXT
        = true ↔
      "sae_ext ".toList <:+:
        (fw.brcmf_fil_iovar_data_get ifp.fwil_fwerr "cap").2.take MAX_CAPS_BUFFER_SIZE) ∧
    ((fw.brcmf_fil_iovar_data_get ifp.fwil_fwerr "cap").2 = "sae_ext ".toList →
      brcmf_feat_is_enabled (brcmf_feat_firmware_capabilities K fw ifp) K.BRCMF_FEAT_SAE_EXT
        = true ∧
      brcmf_feat_is_enabled (brcmf_feat_firmware_capabilities K fw ifp) K.BRCMF_FEAT_SAE
        = false) ∧
    ("rtap".toList <:+:
        (fw.brcmf_fil_iovar_data_get ifp.fwil_fwerr "cap").2.take MAX_CAPS_BUFFER_SIZE →
      brcmf_feat_is_enabled (brcmf_feat_firmware_capabilities K fw ifp)
        K.BRCMF_FEAT_MONITOR_FLAG = true ∧
      brcmf_feat_is_enabled (brcmf_feat_firmware_capabilities K fw ifp)
        K.BRCMF_FEAT_MONITOR_FMT_RADIOTAP = true) := by
  have hne := wf_symm K hK
  have hb := wf_bound K hK
  simp only [brcmf_consts.feat_ids, List.pairwise_cons, List.mem_cons, List.mem_singleton,
    forall_eq_or_imp, forall_eq, List.not_mem_nil, false_implies, implies_true, and_true,
    List.Pairwise.nil] at hne hb
  have hclr := is_enabled_all_clear ifp h0
  have hlen := hifp.1
  have hsae : (brcmf_feat_is_enabled (brcmf_feat_firmware_capabilities K fw ifp)
      K.BRCMF_FEAT_SAE = true ↔ "sae ".toList <:+:
        (fw.brcmf_fil_iovar_data_get ifp.fwil_fwerr "cap").2.take MAX_CAPS_BUFFER_SIZE) := by
    rw [← strnstr_iff, is_enabled_firmware_capabilities]
    simp only [hclr, hcap, hlen, brcmf_fwcap_map, List.any_cons, List.any_nil]
    simp [hne, hb]
  have hext : (brcmf_feat_is_enabled (brcmf_feat_firmware_capabilities K fw ifp)
      K.BRCMF_FEAT_SAE_EXT = true ↔ "sae_ext ".toList <:+:
        (fw.brcmf_fil_iovar_data_get ifp.fwil_fwerr "cap").2.take MAX_CAPS_BUFFER_SIZE) := by
    rw [← strnstr_iff, is_enabled_firmware_capabilities]
    simp only [hclr, hcap, hlen, brcmf_fwcap_map, List.any_cons, List.any_nil]
    simp [hne, hb]
  refine ⟨hsae, hext, ?_, ?_⟩
  · intro hblob
    constructor
    · rw [hext, hblob]
      exact ⟨[], [], rfl⟩
    · rw [Bool.eq_false_iff, Ne, hsae, hblob]
      decide
  · intro hr
    rw [← strnstr_iff] at hr
    constructor
    · rw [is_enabled_firmware_capabilities]
      simp only [hclr, hcap, hlen, brcmf_fwcap_map, List.any_cons, List.any_nil, hr]
      simp [hne, hb]
    · rw [is_enabled_firmware_capabilities]
      simp only [hclr, hcap, hlen, brcmf_fwcap_map, List.any_cons, List.any_nil, hr]
      simp [hne, hb]

/-- C18 at a sample input: the blob "sae_ext " leaves the SAE bit clear. -/
theorem C18_trailing_space_tokens_witness :
    brcmf_feat_is_enabled
      (brcmf_feat_firmware_capabilities sampleConsts
        (sampleFil (0, "sae_ext ".toList) (fun _ => (0, 0)) 0 0 0)
        (sampleIf 1 true [0, 0, 0, 0, 0] [0, 0, 0, 0, 0] false))
      sampleConsts.BRCMF_FEAT_SAE = false :=
  ((C18_trailing_space_tokens sampleConsts
    (sampleFil (0, "sae_ext ".toList) (fun _ => (0, 0)) 0 0 0)
    (sampleIf 1 true [0, 0, 0, 0, 0] [0, 0, 0, 0, 0] false) (by decide) (by decide)
    (by decide) rfl).2.2.1 rfl).2

/-- C19. Chip-identity overrides touch only the features they target: two runs of
`brcmf_feat_attach` with the same firmware answers, the same initial flags, the same
`wowl_supported` flag, the same disable mask and the same initial error mode, which differ
in the chip identity only, end with the same value of every feature bit other than MBSS
and GSCAN. -/
theorem C19_chip_overrides_targeted (K : brcmf_consts) (fw : brcmf_fil)
    (ifp1 ifp2 : brcmf_if) (hK : K.wf) (hifp : ifp1.wf K)
    (hflags : ifp2.drvr.feat_flags = ifp1.drvr.feat_flags)
    (hmask : ifp2.drvr.settings = ifp1.drvr.settings)
    (hwowl : ifp2.drvr.bus_if.wowl_supported = ifp1.drvr.bus_if.wowl_supported)
    (hfwerr : ifp2.fwil_fwerr = ifp1.fwil_fwerr)
    (j : Nat) (hj1 : j ≠ K.BRCMF_FEAT_MBSS) (hj2 : j ≠ K.BRCMF_FEAT_GSCAN) :
    brcmf_feat_is_enabled (brcmf_feat_attach K fw ifp2) j =
      brcmf_feat_is_enabled (brcmf_feat_attach K fw ifp1) j := by
  have hd2 : ∀ b ∈ ifp2.drvr.settings.feature_disable, b < 256 := hmask ▸ hifp.2.2
  rw [is_enabled_attach K fw ifp1 hifp.2.2, is_enabled_attach K fw ifp2 hd2, hmask,
    detect_chip_independent K fw ifp1 ifp2 hK hflags hwowl hfwerr j hj1 hj2]

/-- C19 at a sample input: chips 1 and 0x4330 with the same answers agree on MCHAN. -/
theorem C19_chip_overrides_targeted_witness :
    brcmf_feat_is_enabled
      (brcmf_feat_attach sampleConsts (sampleFil (-5, []) (fun _ => (0, 0)) 0 0 0)
        (sampleIf 0x4330 true [3, 0, 0, 0, 0] [0, 0, 0, 0, 0] false))
      sampleConsts.BRCMF_FEAT_MCHAN =
    brcmf_feat_is_enabled
      (brcmf_feat_attach sampleConsts (sampleFil (-5, []) (fun _ => (0, 0)) 0 0 0)
        (sampleIf 1 true [3, 0, 0, 0, 0] [0, 0, 0, 0, 0] false))
      sampleConsts.BRCMF_FEAT_MCHAN :=
  C19_chip_overrides_targeted sampleConsts (sampleFil (-5, []) (fun _ => (0, 0)) 0 0 0)
    (sampleIf 1 true [3, 0, 0, 0, 0] [0, 0, 0, 0, 0] false)
    (sampleIf 0x4330 true [3, 0, 0, 0, 0] [0, 0, 0, 0, 0] false)
    (by decide) (by decide) rfl rfl rfl rfl sampleConsts.BRCMF_FEAT_MCHAN
    (by decide) (by decide)

/-- C20. Probe frame and read-back: for a feature `id` below `BRCMF_FEAT_LAST`, each of the
three probe executors leaves `brcmf_feat_is_enabled j` as it was for every `j` other than
`id`, leaves every byte of `feat_flags` other than byte `id / 8` as it was, never clears a
bit that was set, and makes `brcmf_feat_is_enabled id` true when the probe marks support
(the round trip returns something other than the sentinel for the query and data-set
probes, no error for the enable-get probe). -/
theorem C20_probe_frame (K : brcmf_consts) (fw : brcmf_fil) (ifp : brcmf_if) (id : Nat)
    (name : String) (subcmd_id : Nat) (hK : K.wf) (hifp : ifp.wf K)
    (hid : id < K.BRCMF_FEAT_LAST) :
    (∀ j, j ≠ id →
      brcmf_feat_is_enabled (brcmf_feat_iovar_int_get K fw ifp id name) j =
        brcmf_feat_is_enabled ifp j ∧
      brcmf_feat_is_enabled (brcmf_feat_iovar_data_set K fw ifp id name) j =
        brcmf_feat_is_enabled ifp j ∧
      brcmf_feat_is_enabled (brcmf_feat_iovar_enab_get fw ifp id name subcmd_id) j =
        brcmf_feat_is_enabled ifp j) ∧
    (∀ i, i ≠ id / 8 →
      (brcmf_feat_iovar_int_get K fw ifp id name).drvr.feat_flags.getD i 0 =
        ifp.drvr.feat_flags.getD i 0 ∧
      (brcmf_feat_iovar_data_set K fw ifp id name).drvr.feat_flags.getD i 0 =
        ifp.drvr.feat_flags.getD i 0 ∧
      (brcmf_feat_iovar_enab_get fw ifp id name subcmd_id).drvr.feat_flags.getD i 0 =
        ifp.drvr.feat_flags.getD i 0) ∧
    (∀ j, brcmf_feat_is_enabled ifp j = true →
      brcmf_feat_is_enabled (brcmf_feat_iovar_int_get K fw ifp id name) j = true ∧
      brcmf_feat_is_enabled (brcmf_feat_iovar_data_set K fw ifp id name) j = true ∧
      brcmf_feat_is_enabled (brcmf_feat_iovar_enab_get fw ifp id name subcmd_id) j = true) ∧
    ((fw.brcmf_fil_iovar_int_get true name).1 ≠ -(K.BRCMF_FW_UNSUPPORTED : Int) →
      brcmf_feat_is_enabled (brcmf_feat_iovar_int_get K fw ifp id name) id = true) ∧
    (fw.brcmf_fil_iovar_data_set true name ≠ -(K.BRCMF_FW_UNSUPPORTED : Int) →
      brcmf_feat_is_enabled (brcmf_feat_iovar_data_set K fw ifp id name) id = true) ∧
    (fw.brcmf_fil_xtlv_data_get true name subcmd_id = 0 →
      brcmf_feat_is_enabled (brcmf_feat_iovar_enab_get fw ifp id name subcmd_id) id = true) := by
  have hb : id / 8 < ifp.drvr.feat_flags.length := by
    have h1 := hK.2.2
    have h2 := hifp.1
    omega
  have hbyte : ∀ (c : Prop) [Decidable c] (i : Nat), i ≠ id / 8 →
      (if c then feat_flags_set ifp.drvr.feat_flags id else ifp.drvr.feat_flags).getD i 0 =
        ifp.drvr.feat_flags.getD i 0 := by
    intro c _ i hi
    by_cases hc : c
    · have hi2 : ¬ id / 8 = i := fun e => hi e.symm
      simp [hc, feat_flags_set, List.getElem?_set, hi2]
    · simp [hc]
  refine ⟨?_, ?_, ?_, ?_, ?_, ?_⟩
  · intro j hj
    simp [is_enabled_int_get, is_enabled_data_set, is_enabled_enab_get, hj]
  · intro i hi
    rw [int_get_flags, data_set_flags, enab_get_flags]
    exact ⟨hbyte _ i hi, hbyte _ i hi, hbyte _ i hi⟩
  · intro j hj
    simp [is_enabled_int_get, is_enabled_data_set, is_enabled_enab_get, hj]
  · intro h; simp [is_enabled_int_get, hb, h]
  · intro h; simp [is_enabled_data_set, hb, h]
  · intro h; simp [is_enabled_enab_get, hb, h]

/-- C20 at a sample input: a successful "twt" enable query on flags that hold MBSS leaves
MBSS enabled. -/
theorem C20_probe_frame_witness :
    brcmf_feat_is_enabled
      (brcmf_feat_iovar_enab_get (sampleFil (-5, []) (fun _ => (0, 0)) 0 0 0)
        (sampleIf 1 true [1, 0, 0, 0, 0] [0, 0, 0, 0, 0] false)
        sampleConsts.BRCMF_FEAT_TWT "twt" sampleConsts.BRCMF_TWT_CMD_ENAB)
      sampleConsts.BRCMF_FEAT_MBSS = true :=
  ((C20_probe_frame sampleConsts (sampleFil (-5, []) (fun _ => (0, 0)) 0 0 0)
    (sampleIf 1 true [1, 0, 0, 0, 0] [0, 0, 0, 0, 0] false)
    sampleConsts.BRCMF_FEAT_TWT "twt" sampleConsts.BRCMF_TWT_CMD_ENAB
    (by decide) (by decide) (by decide)).2.2.1 sampleConsts.BRCMF_FEAT_MBSS (by decide)).2.2

end Brcmf
